import Mathlib

/-!
Verification of the geometric and animation logic of the portfolio site's 3D
centerpiece (`src/components/Dodecahedron.tsx`) and the terminal typewriter
effect of the landing page.

The source computes with JavaScript floating-point numbers over data that is
algebraically exact: every quantity produced by the face-extraction and
edge-sorting pipeline of `Dodecahedron.tsx` lies in the real quadratic tower
ℚ(√5, ρ) with ρ = √(φ + 2), φ = (1 + √5)/2 the golden ratio.  We therefore
embed the pipeline over an executable exact model of that tower:

  * `QR`  — ℚ(√5)(ρ), stored flat as `(n1 + n5·√5 + nr·ρ + nr5·√5·ρ)/d`
            in canonical (gcd-reduced) form, where ρ² = φ + 2;
  * `Fr`, `Q5` — rationals and ℚ(√5), used inside the exact square-root
            routines;
  * `V3`  — 3-vectors over `QR`.

All comparisons (`<`, `≤`, `=`) on these types are decided exactly by sign
computations (squaring away the radicals), so every numeric branch of the
source is decided exactly as the idealised real computation would decide it.
The float computations of the source are modelled by these exact reals; every
branch taken in the pipeline is robust (the compared quantities are separated
by far more than accumulated float error), which is why the exact model is
the faithful idealisation of the float program.
-/

namespace Portfolio

/-- Rational numbers as fractions `n / d` with the invariant `d > 0`
maintained by construction and gcd reduction applied at every operation
(keeping kernel reduction cheap).  Equality and order are value-level
(cross multiplication), not structural. -/
structure Fr where
  n : Int
  d : Int
deriving Repr

namespace Fr

def ofInt (i : Int) : Fr := ⟨i, 1⟩

instance : OfNat Fr m := ⟨ofInt m⟩

/-- Reduce a fraction with positive denominator by the gcd.  Every `Fr`
produced by the operations below is in lowest terms with positive
denominator, i.e. in canonical form. -/
def red (n d : Int) : Fr :=
  let g : Int := Int.ofNat (n.natAbs.gcd d.toNat)
  if g = 1 then ⟨n, d⟩ else ⟨n / g, d / g⟩

def add (x y : Fr) : Fr := red (x.n * y.d + y.n * x.d) (x.d * y.d)

def mul (x y : Fr) : Fr := red (x.n * y.n) (x.d * y.d)

def neg (x : Fr) : Fr := ⟨-x.n, x.d⟩

def sub (x y : Fr) : Fr := add x (neg y)

/-- Multiplicative inverse; junk value `0` at `0` (never hit on the data of
this development). Keeps the denominator positive. -/
def inv (x : Fr) : Fr :=
  if x.n = 0 then ⟨0, 1⟩
  else if x.n < 0 then ⟨-x.d, -x.n⟩
  else ⟨x.d, x.n⟩

instance : Add Fr := ⟨add⟩
instance : Mul Fr := ⟨mul⟩
instance : Neg Fr := ⟨neg⟩
instance : Sub Fr := ⟨sub⟩
instance : Div Fr := ⟨fun x y => x * inv y⟩

/-- Sign of the represented rational (`-1`, `0` or `1`). -/
def sign (x : Fr) : Int := Int.sign x.n

/-- Equality.  All `Fr` values built by the operations of this development
are canonical (lowest terms, positive denominator), so structural equality
is value equality. -/
def beq (x y : Fr) : Bool := x.n == y.n && x.d == y.d

def blt (x y : Fr) : Bool := x.n * y.d < y.n * x.d

def ble (x y : Fr) : Bool := x.n * y.d ≤ y.n * x.d

instance : BEq Fr := ⟨beq⟩

/-- Fueled Newton iteration for the integer square root (structural
recursion on the fuel, so it reduces definitionally; `Nat.sqrt` itself is
defined by well-founded recursion and does not). -/
def isqrtGo : Nat → Nat → Nat → Nat
  | 0, _, x => x
  | fuel + 1, n, x =>
    let xn := (x + n / x) / 2
    if xn < x then isqrtGo fuel n xn else x

/-- Integer square root (floor), by Newton iteration from `n` with fuel `n`
(the iteration at least halves its argument until convergence, so the fuel
is ample); every use below re-verifies the result by squaring. -/
def isqrt (n : Nat) : Nat := if n ≤ 1 then n else isqrtGo n n n

/-- Exact rational square root: `some s` with `s * s = x` when the
represented value is a square in ℚ, else `none`.  Uses that `n/d` is a
rational square iff `n*d` is a perfect integer square. -/
def sqrt? (x : Fr) : Option Fr :=
  if x.n < 0 then none
  else
    let m : Int := x.n * x.d
    let s : Int := Int.ofNat (isqrt m.toNat)
    if s * s == m then some (red s x.d) else none

end Fr

/-- The field ℚ(√5): `a + b·√5`. -/
structure Q5 where
  a : Fr
  b : Fr
deriving Repr

namespace Q5

def ofFr (x : Fr) : Q5 := ⟨x, 0⟩

instance : OfNat Q5 m := ⟨ofFr (Fr.ofInt m)⟩

def add (x y : Q5) : Q5 := ⟨x.a + y.a, x.b + y.b⟩

def mul (x y : Q5) : Q5 := ⟨x.a * y.a + (5 : Fr) * (x.b * y.b), x.a * y.b + x.b * y.a⟩

def neg (x : Q5) : Q5 := ⟨-x.a, -x.b⟩

def sub (x y : Q5) : Q5 := add x (neg y)

instance : Add Q5 := ⟨add⟩
instance : Mul Q5 := ⟨mul⟩
instance : Neg Q5 := ⟨neg⟩
instance : Sub Q5 := ⟨sub⟩

/-- Inverse: `(a - b√5) / (a² - 5b²)`; junk `0` at `0`. -/
def inv (x : Q5) : Q5 :=
  let den : Fr := x.a * x.a - (5 : Fr) * (x.b * x.b)
  ⟨x.a * Fr.inv den, -x.b * Fr.inv den⟩

instance : Div Q5 := ⟨fun x y => x * inv y⟩

def beq (x y : Q5) : Bool := Fr.beq x.a y.a && Fr.beq x.b y.b

instance : BEq Q5 := ⟨beq⟩

/-- Sign of the real number `a + b·√5`, decided exactly by comparing `a²`
with `5·b²` when `a` and `b` have opposite signs. -/
def sign (x : Q5) : Int :=
  let sa := Fr.sign x.a
  let sb := Fr.sign x.b
  if sb = 0 then sa
  else if sa = 0 then sb
  else if sa = sb then sa
  else
    -- a and b have opposite nonzero signs: the sign is the sign of a²-5b²
    -- when a > 0, and its negation when a < 0.
    let c := Fr.sign (x.a * x.a - (5 : Fr) * (x.b * x.b))
    if sa = 1 then c else -c

def blt (x y : Q5) : Bool := sign (sub y x) == 1

def ble (x y : Q5) : Bool := sign (sub y x) ≠ -1

/-- The golden ratio φ = (1 + √5)/2 (constant `t` of three.js
`DodecahedronGeometry`). -/
def phi : Q5 := ⟨⟨1, 2⟩, ⟨1, 2⟩⟩

/-- `1/φ = φ - 1` (constant `r` of three.js `DodecahedronGeometry`). -/
def rphi : Q5 := ⟨⟨-1, 2⟩, ⟨1, 2⟩⟩

/-- `φ + 2`, the square of the radical ρ adjoined in `QR`. -/
def w : Q5 := ⟨⟨5, 2⟩, ⟨1, 2⟩⟩

/-- Exact square root in ℚ(√5) (nonnegative root, `none` when the value is
not a square in ℚ(√5)).  Every candidate is verified by squaring, so the
function is correct by construction wherever it returns `some`. -/
def sqrt? (x : Q5) : Option Q5 :=
  let cands : List Q5 :=
    (match Fr.sqrt? x.a with
      | some p => [⟨p, 0⟩]
      | none => []) ++
    (match Fr.sqrt? (x.a / (5 : Fr)) with
      | some q => [⟨0, q⟩]
      | none => []) ++
    (match Fr.sqrt? (x.a * x.a - (5 : Fr) * (x.b * x.b)) with
      | some s =>
        (match Fr.sqrt? ((x.a + s) / (2 : Fr)) with
          | some p => if Fr.beq p 0 then [] else [⟨p, x.b / ((2 : Fr) * p)⟩]
          | none => []) ++
        (match Fr.sqrt? ((x.a - s) / (2 : Fr)) with
          | some p => if Fr.beq p 0 then [] else [⟨p, x.b / ((2 : Fr) * p)⟩]
          | none => [])
      | none => [])
  (cands.map (fun c => if sign c = -1 then neg c else c)).find?
    (fun c => beq (mul c c) x)

end Q5

/-- The field ℚ(√5)(ρ) with ρ = √(φ + 2), stored flat:
`(n1 + n5·√5 + nr·ρ + nr5·√5·ρ) / d` with `d > 0` and
`gcd(n1, n5, nr, nr5, d) = 1` (canonical form) maintained by construction.
Writing `A = (n1 + n5√5)/d` and `B = (nr + nr5√5)/d`, the value is
`A + B·ρ`. -/
structure QR where
  n1 : Int
  n5 : Int
  nr : Int
  nr5 : Int
  d : Int
deriving Repr

namespace QR

/-- Canonicalising constructor (positive denominator expected). -/
def redQ (n1 n5 nr nr5 d : Int) : QR :=
  let g : Int :=
    Int.ofNat (((n1.natAbs.gcd n5.natAbs).gcd (nr.natAbs.gcd nr5.natAbs)).gcd d.toNat)
  if g = 1 then ⟨n1, n5, nr, nr5, d⟩ else ⟨n1 / g, n5 / g, nr / g, nr5 / g, d / g⟩

def ofInt (i : Int) : QR := ⟨i, 0, 0, 0, 1⟩

instance : OfNat QR m := ⟨ofInt m⟩

def add (x y : QR) : QR :=
  redQ (x.n1 * y.d + y.n1 * x.d) (x.n5 * y.d + y.n5 * x.d)
    (x.nr * y.d + y.nr * x.d) (x.nr5 * y.d + y.nr5 * x.d) (x.d * y.d)

def neg (x : QR) : QR := ⟨-x.n1, -x.n5, -x.nr, -x.nr5, x.d⟩

def sub (x y : QR) : QR := add x (neg y)

/-- Multiplication, using `√5·√5 = 5`, `ρ² = (5 + √5)/2`. -/
def mul (x y : QR) : QR :=
  let cc := x.nr * y.nr
  let ee := x.nr5 * y.nr5
  let ce := x.nr * y.nr5 + x.nr5 * y.nr
  redQ (2 * (x.n1 * y.n1 + 5 * (x.n5 * y.n5)) + 5 * cc + 25 * ee + 5 * ce)
    (2 * (x.n1 * y.n5 + x.n5 * y.n1) + cc + 5 * ee + 5 * ce)
    (2 * (x.n1 * y.nr + x.nr * y.n1 + 5 * (x.n5 * y.nr5 + x.nr5 * y.n5)))
    (2 * (x.n1 * y.nr5 + x.nr5 * y.n1 + x.n5 * y.nr + x.nr * y.n5))
    (2 * (x.d * y.d))

instance : Add QR := ⟨add⟩
instance : Mul QR := ⟨mul⟩
instance : Neg QR := ⟨neg⟩
instance : Sub QR := ⟨sub⟩

/-- The conjugation `ρ ↦ −ρ` (a field automorphism over ℚ(√5)). -/
def conjR (x : QR) : QR := ⟨x.n1, x.n5, -x.nr, -x.nr5, x.d⟩

/-- Inverse: `x⁻¹ = conjR x · z⁻¹` with `z = x · conjR x ∈ ℚ(√5)`;
junk value `0` at `0`. -/
def inv (x : QR) : QR :=
  let y := conjR x
  let z := mul x y
  let den := z.n1 * z.n1 - 5 * (z.n5 * z.n5)
  let zi :=
    if den < 0 then redQ (-(z.d * z.n1)) (z.d * z.n5) 0 0 (-den)
    else redQ (z.d * z.n1) (-(z.d * z.n5)) 0 0 den
  mul y zi

instance : Div QR := ⟨fun x y => x * inv y⟩

/-- Equality.  All `QR` values built by the operations of this development
are canonical, so structural equality is value equality. -/
def beq (x y : QR) : Bool :=
  x.n1 == y.n1 && x.n5 == y.n5 && x.nr == y.nr && x.nr5 == y.nr5 && x.d == y.d

instance : BEq QR := ⟨beq⟩

/-- Sign of the integer-pair value `a + b·√5`, decided exactly. -/
def signI5 (a b : Int) : Int :=
  let sa := Int.sign a
  let sb := Int.sign b
  if sb = 0 then sa
  else if sa = 0 then sb
  else if sa = sb then sa
  else
    let c := Int.sign (a * a - 5 * (b * b))
    if sa = 1 then c else -c

/-- Sign of the real number `A + B·ρ` (the denominator is positive), decided
exactly: when `A` and `B` have opposite signs, compare `A²` with `B²·ρ²`
(using `2·B²·ρ² = B²·(5 + √5)`). -/
def sign (x : QR) : Int :=
  let sA := signI5 x.n1 x.n5
  let sB := signI5 x.nr x.nr5
  if sB = 0 then sA
  else if sA = 0 then sB
  else if sA = sB then sA
  else
    let u := x.nr * x.nr + 5 * (x.nr5 * x.nr5)
    let v := 2 * (x.nr * x.nr5)
    let w1 := 2 * (x.n1 * x.n1 + 5 * (x.n5 * x.n5)) - (5 * u + 5 * v)
    let w2 := 4 * (x.n1 * x.n5) - (u + 5 * v)
    let c := signI5 w1 w2
    if sA = 1 then c else -c

/-- `x < y`, via the sign of the (unreduced) difference. -/
def blt (x y : QR) : Bool :=
  sign ⟨y.n1 * x.d - x.n1 * y.d, y.n5 * x.d - x.n5 * y.d,
    y.nr * x.d - x.nr * y.d, y.nr5 * x.d - x.nr5 * y.d, x.d * y.d⟩ == 1

/-- `x ≤ y`, via the sign of the (unreduced) difference. -/
def ble (x y : QR) : Bool :=
  sign ⟨y.n1 * x.d - x.n1 * y.d, y.n5 * x.d - x.n5 * y.d,
    y.nr * x.d - x.nr * y.d, y.nr5 * x.d - x.nr5 * y.d, x.d * y.d⟩ ≠ -1

/-- `Math.abs`. -/
def abs (x : QR) : QR := if sign x = -1 then neg x else x

/-- `Math.max`. -/
def max (x y : QR) : QR := if ble x y then y else x

/-- `Math.min`. -/
def min (x y : QR) : QR := if ble x y then x else y

/-- The `A`-part (coefficients of `1` and `√5`) as a `Q5`. -/
def toP (x : QR) : Q5 := ⟨Fr.red x.n1 x.d, Fr.red x.n5 x.d⟩

/-- The `B`-part (coefficients of `ρ` and `√5·ρ`) as a `Q5`. -/
def toQ (x : QR) : Q5 := ⟨Fr.red x.nr x.d, Fr.red x.nr5 x.d⟩

/-- Reassemble a `QR` from its `A`- and `B`-parts. -/
def ofPQ (p q : Q5) : QR :=
  redQ (p.a.n * (p.b.d * (q.a.d * q.b.d))) (p.b.n * (p.a.d * (q.a.d * q.b.d)))
    (q.a.n * (p.a.d * (p.b.d * q.b.d))) (q.b.n * (p.a.d * (p.b.d * q.a.d)))
    (p.a.d * (p.b.d * (q.a.d * q.b.d)))

def ofQ5 (x : Q5) : QR := ofPQ x ⟨0, 0⟩

/-- Exact nonnegative square root in ℚ(√5)(ρ); total, with junk value `0`
when the value is not a square in the field (every use in this development
succeeds, as the claim theorems verify by evaluation).  With `x = p + q·ρ`
and a root `y = u + v·ρ`, either `q = 0` and `y ∈ ℚ(√5)` or `y ∈ ℚ(√5)·ρ`,
or `u² ` solves `Y² − p·Y + (φ+2)·q²/4 = 0`; each candidate is verified by
squaring. -/
def sqrt (x : QR) : QR :=
  let p := toP x
  let q := toQ x
  let cands : List (Q5 × Q5) :=
    (match Q5.sqrt? p with
      | some c => [(c, (0 : Q5))]
      | none => []) ++
    (match Q5.sqrt? (p / Q5.w) with
      | some c => [((0 : Q5), c)]
      | none => []) ++
    (match Q5.sqrt? (p * p - Q5.w * (q * q)) with
      | some s =>
        (match Q5.sqrt? ((p + s) / (2 : Q5)) with
          | some u => if Q5.beq u 0 then [] else [(u, q / ((2 : Q5) * u))]
          | none => []) ++
        (match Q5.sqrt? ((p - s) / (2 : Q5)) with
          | some u => if Q5.beq u 0 then [] else [(u, q / ((2 : Q5) * u))]
          | none => [])
      | none => [])
  match (cands.map (fun c =>
      let y := ofPQ c.1 c.2
      if sign y = -1 then neg y else y)).find?
    (fun y => beq (mul y y) x) with
  | some y => y
  | none => 0

end QR

/-- 3-vectors over `QR` (model of `THREE.Vector3` on the exact data of this
pipeline). -/
structure V3 where
  x : QR
  y : QR
  z : QR
deriving Repr

namespace V3

def zero : V3 := ⟨0, 0, 0⟩

def add (u v : V3) : V3 := ⟨u.x + v.x, u.y + v.y, u.z + v.z⟩

def sub (u v : V3) : V3 := ⟨u.x - v.x, u.y - v.y, u.z - v.z⟩

def neg (u : V3) : V3 := ⟨-u.x, -u.y, -u.z⟩

instance : Add V3 := ⟨add⟩
instance : Sub V3 := ⟨sub⟩
instance : Neg V3 := ⟨neg⟩

def smul (c : QR) (u : V3) : V3 := ⟨c * u.x, c * u.y, c * u.z⟩

def dot (u v : V3) : QR := u.x * v.x + u.y * v.y + u.z * v.z

/-- `THREE.Vector3.cross` (`u × v`). -/
def cross (u v : V3) : V3 :=
  ⟨u.y * v.z - u.z * v.y, u.z * v.x - u.x * v.z, u.x * v.y - u.y * v.x⟩

def normSq (u : V3) : QR := dot u u

def beq (u v : V3) : Bool := QR.beq u.x v.x && QR.beq u.y v.y && QR.beq u.z v.z

instance : BEq V3 := ⟨beq⟩

/-- `THREE.Vector3.normalize` (`v.multiplyScalar(1/√(v.lengthSq()))`),
computed exactly; the zero vector is left unchanged, as in three.js
(division by 0 there yields no finite update we rely on — no zero vector is
ever normalised in this pipeline). -/
def normalize (u : V3) : V3 :=
  if beq u zero then u else smul (QR.inv (QR.sqrt (normSq u))) u

end V3

/-! ### The three.js geometry constructors used by the component

`new THREE.DodecahedronGeometry(RADIUS, 0)` is `PolyhedronGeometry` on the
dodecahedron vertex/index tables with `detail = 0`: the vertex buffer lists,
for each of the 36 index triples, the three looked-up vertices in order (the
geometry is non-indexed, `getIndex()` is `null`), and `applyRadius(radius)`
rescales every vertex onto the sphere of radius `RADIUS = 2.5`.

Every table vertex has squared length 3, so `applyRadius` is the uniform
scaling by `2.5/√3`.  Since `√3 ∉ ℚ(√5, ρ)`, we store each position in the
fixed rescaled coordinates  `rep = (√3/2.5) · actual`  (so the table vertices
are their own `rep` after `applyRadius`).  The rescaling is by the positive
constant `√3/2.5`, hence:
  * direction comparisons, dot-product signs, argmaxima, normalised vectors
    and sort-key orderings are identical in `rep` and `actual` coordinates;
  * the only places absolute magnitudes matter are distance thresholds,
    where `actualDist² = (25/12) · repDist²`; those sites carry the explicit
    `25/12` factor below.
-/

/-- `t = (1 + √5)/2` of `DodecahedronGeometry`, as a `QR` scalar. -/
def tQ : QR := ⟨1, 1, 0, 0, 2⟩

/-- `r = 1/t` of `DodecahedronGeometry`, as a `QR` scalar. -/
def rQ : QR := ⟨-1, 1, 0, 0, 2⟩

/-- The 20-entry vertex table of `THREE.DodecahedronGeometry`
(`(±1, ±1, ±1)`, `(0, ±1/φ, ±φ)`, `(±1/φ, ±φ, 0)`, `(±φ, 0, ±1/φ)`). -/
def dodecVertices : List V3 :=
  [⟨-1, -1, -1⟩, ⟨-1, -1, 1⟩, ⟨-1, 1, -1⟩, ⟨-1, 1, 1⟩,
   ⟨1, -1, -1⟩, ⟨1, -1, 1⟩, ⟨1, 1, -1⟩, ⟨1, 1, 1⟩,
   ⟨0, -rQ, -tQ⟩, ⟨0, -rQ, tQ⟩, ⟨0, rQ, -tQ⟩, ⟨0, rQ, tQ⟩,
   ⟨-rQ, -tQ, 0⟩, ⟨-rQ, tQ, 0⟩, ⟨rQ, -tQ, 0⟩, ⟨rQ, tQ, 0⟩,
   ⟨-tQ, 0, -rQ⟩, ⟨tQ, 0, -rQ⟩, ⟨-tQ, 0, rQ⟩, ⟨tQ, 0, rQ⟩]

/-- The 108-entry index table of `THREE.DodecahedronGeometry` (36 triangles,
three per pentagonal face). -/
def dodecIndices : List Nat :=
  [3, 11, 7,    3, 7, 15,    3, 15, 13,
   7, 19, 17,   7, 17, 6,    7, 6, 15,
   17, 4, 8,    17, 8, 10,   17, 10, 6,
   8, 0, 16,    8, 16, 2,    8, 2, 10,
   0, 12, 1,    0, 1, 18,    0, 18, 16,
   6, 10, 2,    6, 2, 13,    6, 13, 15,
   2, 16, 18,   2, 18, 3,    2, 3, 13,
   18, 1, 9,    18, 9, 11,   18, 11, 3,
   4, 14, 12,   4, 12, 0,    4, 0, 8,
   11, 9, 5,    11, 5, 19,   11, 19, 7,
   19, 5, 14,   19, 14, 4,   19, 4, 17,
   1, 12, 14,   1, 14, 5,    1, 5, 9]

/-- `PolyhedronGeometry.subdivide(0)`: the non-indexed vertex buffer listing
each index triple's vertices in order. -/
def vertexBuffer : List V3 := dodecIndices.map (fun i => dodecVertices.getD i V3.zero)

/-- `PolyhedronGeometry.applyRadius(2.5)` in `rep` coordinates:
`actual = 2.5·v/‖v‖`, so `rep = √3·v/‖v‖ = v · (1/√(‖v‖²/3))`.  On every
table vertex `‖v‖² = 3`, making this the identity on `rep` coordinates. -/
def applyRadiusRep (v : V3) : V3 := V3.smul (QR.inv (QR.sqrt (V3.normSq v / 3))) v

/-- The `position` attribute of the dodecahedron geometry (108 vertices,
`rep` coordinates). -/
def dodecPositions : List V3 := vertexBuffer.map applyRadiusRep

/-- `getTriVert(posAttr, index, triIndex, vertOffset)` of
`Dodecahedron.tsx` for this geometry: `getIndex()` is `null` for
`PolyhedronGeometry`, so the vertex is read at `triIndex + vertOffset`. -/
def getTriVert (posList : List V3) (triIndex vertOffset : Nat) : V3 :=
  posList.getD (triIndex + vertOffset) V3.zero

/-- `THREE.Triangle.getNormal(a, b, c)`: `normalize((c − b) × (a − b))`,
with the zero vector returned for degenerate triangles.  Unit normals are
scale-invariant, so computing them from `rep` positions yields exactly the
unit normals of the `actual` positions. -/
def triGetNormal (a b c : V3) : V3 :=
  let tgt := V3.cross (c - b) (a - b)
  let s := V3.normSq tgt
  if QR.sign s = 1 then V3.smul (QR.inv (QR.sqrt s)) tgt else V3.zero

/-- Normal of triangle `t` of a non-indexed triangle list. -/
def triNormalAt (posList : List V3) (t : Nat) : V3 :=
  triGetNormal (getTriVert posList (3 * t) 0) (getTriVert posList (3 * t) 1)
    (getTriVert posList (3 * t) 2)

/-! ### `createAlignedDodecGeo` -/

/-- Shorthand for a rational `QR` scalar. -/
def qrFrac (n d : Int) : QR := QR.redQ n 0 0 0 d

/-- The `bestNormal` loop of `createAlignedDodecGeo`: the normal of the
first triangle maximising `n.dot(targetDir)` with `targetDir = (0,0,1)`
(strict `>` against a running best initialised to `-Infinity`, modelled by
`Option`). -/
def bestNormalOf (posList : List V3) : V3 :=
  (((List.range (posList.length / 3)).foldl
    (fun (acc : V3 × Option QR) t =>
      let a := getTriVert posList (3 * t) 0
      let b := getTriVert posList (3 * t) 1
      let c := getTriVert posList (3 * t) 2
      let n := triGetNormal a b c
      let d := n.z
      match acc.2 with
      | none => (n, some d)
      | some bd => if QR.blt bd d then (n, some d) else acc)
    (V3.zero, none))).1

/-- Application to `v` of the rotation of the quaternion with unnormalised
components `(k, w)`.  For the unit quaternion `q = u/‖u‖` with `u = (k, w)`,
`THREE.Vector3.applyQuaternion` computes
`v + 2(w/‖u‖)·((k/‖u‖)×v) + 2·(k/‖u‖)×((k/‖u‖)×v)`, i.e.
`v + (2w/‖u‖²)·(k×v) + (2/‖u‖²)·k×(k×v)` — only the squared norm enters,
which keeps the computation inside the field.
(`BufferGeometry.applyQuaternion` routes through the rotation matrix of the
same unit quaternion, which is this same linear map.) -/
def quatApply (k : V3) (w : QR) (v : V3) : V3 :=
  let nsq := V3.normSq k + w * w
  let kv := V3.cross k v
  v + V3.smul (2 * w / nsq) kv + V3.smul (2 / nsq) (V3.cross k kv)

/-- Result of `createAlignedDodecGeo`: the aligned geometry's `position`
attribute, the align quaternion `alignQ` (kept as its unnormalised
components `alignK, alignW`; three.js normalises, `quatApply` absorbs the
normalisation), and `bottomCenter`. -/
structure AlignedGeoResult where
  positions : List V3
  alignK : V3
  alignW : QR
  bottomCenter : V3

/-- `createAlignedDodecGeo()` of `Dodecahedron.tsx`.
`alignQ = setFromUnitVectors(bestNormal, targetDir)` with
`targetDir = (0, 0, 1)`: vector part `bestNormal × targetDir`, scalar part
`r = bestNormal · targetDir + 1`.  (The `r < Number.EPSILON` antipodal
fallback of `setFromUnitVectors` is not taken: here `r ≈ 1.85`; the claim
theorems force this data, so the computation is checked.)
`bottomCenter` is the average, with multiplicity, of the triangle vertices
of aligned triangles whose normal has `n.dot(targetDir) > 0.99`. -/
def createAlignedDodecGeo : AlignedGeoResult :=
  let posRaw := dodecPositions
  let bn := bestNormalOf posRaw
  let k := V3.cross bn ⟨0, 0, 1⟩
  let w := V3.dot bn ⟨0, 0, 1⟩ + 1
  let aligned := posRaw.map (quatApply k w)
  let bottomVerts :=
    (List.range (aligned.length / 3)).foldl
      (fun (acc : List V3) t =>
        let a := getTriVert aligned (3 * t) 0
        let b := getTriVert aligned (3 * t) 1
        let c := getTriVert aligned (3 * t) 2
        let n := triGetNormal a b c
        if QR.blt (qrFrac 99 100) n.z then acc ++ [a, b, c] else acc) []
  let bsum := bottomVerts.foldl V3.add V3.zero
  let bc :=
    if bottomVerts.length = 0 then bsum
    else V3.smul (QR.inv (QR.ofInt bottomVerts.length)) bsum
  ⟨aligned, k, w, bc⟩

/-! ### `THREE.EdgesGeometry(geo, 1)` and `extractSortedEdges`

`EdgesGeometry` walks all triangles, keys each directed edge by the string
hash of its endpoints' coordinates rounded to 4 decimals, and emits an edge
when its reversed key is already stored and the two adjacent triangle
normals satisfy `n₁ · n₂ ≤ cos(1°)`; leftover unmatched edges are emitted at
the end.  We model the rounded-coordinate hash by the exact endpoint
coordinates: distinct vertices of this geometry are ≥ 1.2 apart (in `rep`
coordinates) while coincident ones are exactly equal, so rounding to 4
decimals merges exactly the exactly-equal vertices.  The JS object
`edgeData` keeps insertion order and `edgeData[k] = null` keeps the key
present — both are modelled by an association list updated in place. -/

structure EdgeInfo where
  index0 : Nat
  index1 : Nat
  normal : V3

/-- `thresholdDot = Math.cos(DEG2RAD * 1)`: the double value is
`0.9998476951563913…`; we use that decimal, which lies — as the double
does — strictly between every cross-face normal dot (≤ `1/√5 ≈ 0.447`) and
the coplanar dot `1`, so every branch decision agrees with the float run. -/
def thresholdDot : QR := qrFrac 9998476951563913 10000000000000000

def edgeKeyBeq (k1 k2 : V3 × V3) : Bool := V3.beq k1.1 k2.1 && V3.beq k1.2 k2.2

def edgeLookup (l : List ((V3 × V3) × Option EdgeInfo)) (k : V3 × V3) :
    Option (Option EdgeInfo) :=
  match l with
  | [] => none
  | (k', v) :: rest => if edgeKeyBeq k' k then some v else edgeLookup rest k

/-- Replace the value stored at key `k` (keeping the entry's position), as
JS property assignment does. -/
def edgeSet (l : List ((V3 × V3) × Option EdgeInfo)) (k : V3 × V3)
    (v : Option EdgeInfo) : List ((V3 × V3) × Option EdgeInfo) :=
  match l with
  | [] => []
  | (k', v') :: rest =>
    if edgeKeyBeq k' k then (k', v) :: rest else (k', v') :: edgeSet rest k v

/-- State of the `EdgesGeometry` construction: the `edgeData` map and the
emitted segment list. -/
structure EdgeState where
  edgeData : List ((V3 × V3) × Option EdgeInfo)
  vertices : List (V3 × V3)

/-- Process one directed edge `(i0, v0) → (i1, v1)` of a triangle with
normal `n` (body of the `for (let j = 0; j < 3; j++)` loop). -/
def edgeStep (st : EdgeState) (i0 i1 : Nat) (v0 v1 : V3) (n : V3) : EdgeState :=
  let key := (v0, v1)
  let rkey := (v1, v0)
  match edgeLookup st.edgeData rkey with
  | some (some info) =>
    let vs := if QR.ble (V3.dot n info.normal) thresholdDot
      then st.vertices ++ [(v0, v1)] else st.vertices
    ⟨edgeSet st.edgeData rkey none, vs⟩
  | some none => st
  | none =>
    match edgeLookup st.edgeData key with
    | some _ => st
    | none => ⟨st.edgeData ++ [(key, some ⟨i0, i1, n⟩)], st.vertices⟩

/-- Process one triangle of the (non-indexed) geometry. -/
def edgeTriStep (posList : List V3) (st : EdgeState) (t : Nat) : EdgeState :=
  let i0 := 3 * t
  let a := getTriVert posList (3 * t) 0
  let b := getTriVert posList (3 * t) 1
  let c := getTriVert posList (3 * t) 2
  let n := triGetNormal a b c
  -- degenerate-triangle skip (two equal vertex hashes); never hit here
  if V3.beq a b || V3.beq b c || V3.beq c a then st
  else
    let st := edgeStep st i0 (i0 + 1) a b n
    let st := edgeStep st (i0 + 1) (i0 + 2) b c n
    edgeStep st (i0 + 2) i0 c a n

/-- The segment list (`position` attribute, as endpoint pairs) of
`new THREE.EdgesGeometry(geo, 1)`: matched-and-emitted edges in traversal
order, then leftover unmatched edges in insertion order. -/
def edgesGeometrySegments (posList : List V3) : List (V3 × V3) :=
  let st := (List.range (posList.length / 3)).foldl (edgeTriStep posList) ⟨[], []⟩
  st.vertices ++
    (st.edgeData.foldl (fun acc e =>
      match e.2 with
      | some info =>
        acc ++ [(posList.getD info.index0 V3.zero, posList.getD info.index1 V3.zero)]
      | none => acc) [])

/-- `SortedEdge` of `Dodecahedron.tsx` (`ax…bz` kept as the two endpoint
vectors). -/
structure SortedEdge where
  a : V3
  b : V3
  sortY : QR
deriving Repr

/-- Stable insertion into a list sorted by `sortY` (new element goes after
existing elements with equal key). -/
def sortedInsert (x : SortedEdge) : List SortedEdge → List SortedEdge
  | [] => [x]
  | y :: ys =>
    if QR.blt x.sortY y.sortY then x :: y :: ys else y :: sortedInsert x ys

/-- Stable sort by `sortY`.  `Array.prototype.sort` with comparator
`(a, b) => a.sortY - b.sortY` is a stable sort by `sortY`; a stable sort's
output is uniquely determined, so insertion sort models it exactly. -/
def sortBySortY (l : List SortedEdge) : List SortedEdge :=
  l.foldl (fun acc x => sortedInsert x acc) []

/-- `extractSortedEdges(geo)` of `Dodecahedron.tsx`: the unique wireframe
edges of `EdgesGeometry(geo, 1)` with sort key `-Math.max(az, bz)`, sorted
ascending (bottom first). -/
def extractSortedEdges (posList : List V3) : List SortedEdge :=
  let segs := (edgesGeometrySegments posList).map
    (fun s => SortedEdge.mk s.1 s.2 (-(QR.max s.1.z s.2.z)))
  sortBySortY segs

/-- The edge list the component computes:
`extractSortedEdges(alignedGeo)`. -/
def sortedEdges : List SortedEdge := extractSortedEdges createAlignedDodecGeo.positions

/-! ### `FACE_DEFINITIONS` and `computeFaces` -/

/-- The `direction` fields of the 12 `FACE_DEFINITIONS` entries of
`Dodecahedron.tsx`, in declaration order. -/
def faceDirections : List V3 :=
  [⟨0, 1, tQ⟩, ⟨0, -1, -tQ⟩, ⟨0, 1, -tQ⟩, ⟨0, -1, tQ⟩,
   ⟨1, tQ, 0⟩, ⟨-1, tQ, 0⟩, ⟨1, -tQ, 0⟩, ⟨-1, -tQ, 0⟩,
   ⟨tQ, 0, 1⟩, ⟨-tQ, 0, 1⟩, ⟨tQ, 0, -1⟩, ⟨-tQ, 0, -1⟩]

/-- The `slug` fields of the 12 `FACE_DEFINITIONS` entries, in declaration
order (for readability of the matching results). -/
def faceSlugs : List String :=
  ["portrait", "footer", "hardhaq", "hackml", "macropad", "leadership",
   "hudson", "air-mouse", "solder-bot", "research", "quant", "awards"]

/-- A triangle group of `computeFaces` (`{ verts, normal }`). -/
structure TriGroup where
  verts : List V3
  normal : V3

/-- Insert one triangle into the group list: the vertices join the first
group whose stored normal has `dot > 0.99` with the triangle's normal,
else a new group is appended (the loop body of `computeFaces`). -/
def addTriToGroups (a b c n : V3) : List TriGroup → List TriGroup
  | [] => [⟨[a, b, c], n⟩]
  | g :: gs =>
    if QR.blt (qrFrac 99 100) (V3.dot g.normal n) then
      ⟨g.verts ++ [a, b, c], g.normal⟩ :: gs
    else g :: addTriToGroups a b c n gs

/-- The triangle grouping of `computeFaces` over the aligned geometry. -/
def faceGroups (posList : List V3) : List TriGroup :=
  (List.range (posList.length / 3)).foldl
    (fun gs t =>
      let a := getTriVert posList (3 * t) 0
      let b := getTriVert posList (3 * t) 1
      let c := getTriVert posList (3 * t) 2
      addTriToGroups a b c (triGetNormal a b c) gs) []

/-- `u.distanceTo(v) < 0.001` on actual coordinates:
`actualDist² = (25/12)·repDist² < 10⁻⁶`. -/
def distLtMilli (u v : V3) : Bool :=
  QR.blt (qrFrac 25 12 * V3.normSq (u - v)) (qrFrac 1 1000000)

/-- The unique-vertex extraction of `computeFaces`. -/
def uniqueVerts (verts : List V3) : List V3 :=
  verts.foldl (fun uni v => if uni.any (fun u => distLtMilli u v) then uni else uni ++ [v]) []

/-- The definition-matching loop of `computeFaces`: index of the first
`FACE_DEFINITIONS` entry maximising `dot(alignQ · normalize(direction), n)`
(strict `>` against a running best initialised to `-Infinity`);
`k, w` are the components of `alignQ`. -/
def matchDefinition (k : V3) (w : QR) (n : V3) : Nat :=
  (((faceDirections.enum).foldl
    (fun (acc : Nat × Option QR) di =>
      let dir := quatApply k w (V3.normalize di.2)
      let d := V3.dot dir n
      match acc.2 with
      | none => (di.1, some d)
      | some bd => if QR.blt bd d then (di.1, some d) else acc)
    (0, none))).1

/-- The per-group result of `computeFaces` (the source also packs
`xAxis, yAxis, zAxis` into a quaternion via
`setFromRotationMatrix(makeBasis(...))`; the claims are about the basis,
kept here explicitly). -/
structure ComputedFace where
  position : V3
  xAxis : V3
  yAxis : V3
  zAxis : V3
  normal : V3
  unique : List V3
  bestVertex : V3
  defIdx : Nat

/-- The per-group map body of `computeFaces` (`groups.map((g) => …)`);
`k, w` are the components of `alignQ`. -/
def computeFaceOfGroup (k : V3) (w : QR) (g : TriGroup) : ComputedFace :=
  let unique := uniqueVerts g.verts
  let center := V3.smul (QR.inv (QR.ofInt unique.length))
    (unique.foldl V3.add V3.zero)
  let n := V3.normalize g.normal
  let defIdx := matchDefinition k w n
  let zAxis := n
  let worldUp : V3 := if QR.blt (qrFrac 99 100) (QR.abs n.y) then ⟨0, 0, 1⟩ else ⟨0, 1, 0⟩
  let visualUp := V3.normalize (worldUp - V3.smul (V3.dot worldUp n) n)
  let bestVertex :=
    ((unique.foldl
      (fun (acc : V3 × Option QR) v =>
        let dir := V3.normalize (v - center)
        let d := V3.dot dir visualUp
        match acc.2 with
        | none => (v, some d)
        | some m => if QR.blt m d then (v, some d) else acc)
      (unique.headD V3.zero, none))).1
  let up := V3.normalize (bestVertex - center)
  let xAxis := V3.normalize (V3.cross up zAxis)
  let yAxis := V3.normalize (V3.cross zAxis xAxis)
  ⟨center, xAxis, yAxis, zAxis, n, unique, bestVertex, defIdx⟩

/-- `computeFaces(geo, alignQ)` of `Dodecahedron.tsx` on an arbitrary
(non-indexed) geometry. -/
def computeFacesOn (posList : List V3) (k : V3) (w : QR) : List ComputedFace :=
  (faceGroups posList).map (computeFaceOfGroup k w)

/-- The face list the component computes:
`computeFaces(alignedGeo, alignQ)`. -/
def computeFaces : List ComputedFace :=
  computeFacesOn createAlignedDodecGeo.positions createAlignedDodecGeo.alignK
    createAlignedDodecGeo.alignW

/-! ### Decidable checks for the geometry claims

The geometry claims are closed facts about `sortedEdges` and
`computeFaces`; the per-item conditions are expressed as Boolean checks. -/

/-- Arithmetic mean of a list of vectors. -/
def vmean (l : List V3) : V3 :=
  if l.length = 0 then V3.zero
  else V3.smul (QR.inv (QR.ofInt l.length)) (l.foldl V3.add V3.zero)

/-- C1 per-face check: exactly 5 unique vertices, all lying in the plane
through the face position orthogonal to the face normal (a planar
pentagon). -/
def c1FaceOk (f : ComputedFace) : Bool :=
  f.unique.length == 5 &&
  f.unique.all (fun v => QR.beq (V3.dot (v - f.position) f.normal) 0)

/-- The tilt rotation `R_x(π/2)` (`tiltQuat = setFromUnitVectors(+z, −y)`):
`(x, y, z) ↦ (x, −z, y)`.  After the tilt, the world height (`y`) of a
local point is `−z`. -/
def tiltMap (v : V3) : V3 := ⟨v.x, -v.z, v.y⟩

/-- Squared edge length of the dodecahedron in `rep` coordinates:
`(√5 − 1)² = 6 − 2√5`. -/
def edgeLenSqRep : QR := ⟨6, -2, 0, 0, 1⟩

/-- C2 per-edge check: the sort key is `−max(az, bz)`, which equals the
smaller post-tilt height of the edge's two endpoints, and the segment has
the solid's geometric edge length. -/
def c2EdgeOk (e : SortedEdge) : Bool :=
  QR.beq e.sortY (-(QR.max e.a.z e.b.z)) &&
  QR.beq e.sortY (QR.min (tiltMap e.a).y (tiltMap e.b).y) &&
  QR.beq (V3.normSq (e.a - e.b)) edgeLenSqRep

/-- Adjacent sort keys are non-decreasing. -/
def chainSorted : List SortedEdge → Bool
  | [] => true
  | [_] => true
  | e1 :: e2 :: rest => QR.ble e1.sortY e2.sortY && chainSorted (e2 :: rest)

/-- Two segments are the same undirected edge. -/
def sameUnordered (e1 e2 : SortedEdge) : Bool :=
  (V3.beq e1.a e2.a && V3.beq e1.b e2.b) || (V3.beq e1.a e2.b && V3.beq e1.b e2.a)

/-- No undirected edge occurs twice. -/
def noDupEdges : List SortedEdge → Bool
  | [] => true
  | e :: rest => !(rest.any (sameUnordered e)) && noDupEdges rest

/-- The distinct vertex positions of a vertex list. -/
def dedupV (l : List V3) : List V3 :=
  l.foldl (fun acc v => if acc.any (fun u => V3.beq u v) then acc else acc ++ [v]) []

/-- All unordered vertex pairs at geometric-edge distance. -/
def adjPairs : List V3 → List (V3 × V3)
  | [] => []
  | v :: rest =>
    (rest.filterMap (fun u =>
      if QR.beq (V3.normSq (v - u)) edgeLenSqRep then some (v, u) else none)) ++
    adjPairs rest

/-- The segment list contains the given undirected edge. -/
def edgeHas (edges : List SortedEdge) (p : V3 × V3) : Bool :=
  edges.any (fun e =>
    (V3.beq e.a p.1 && V3.beq e.b p.2) || (V3.beq e.a p.2 && V3.beq e.b p.1))

/-- C2 coverage check: the aligned geometry has 20 distinct vertices with
exactly 30 unordered vertex pairs at edge distance (the geometric edges of
the solid) and every one of them occurs in the returned list. -/
def c2Coverage (aligned : List V3) (edges : List SortedEdge) : Bool :=
  let vs := dedupV aligned
  let ap := adjPairs vs
  (vs.length == 20) && ((ap.length == 30) && ap.all (edgeHas edges))

/-- C7 per-face check: the position is the arithmetic mean of the face's
unique vertices; `(xAxis, yAxis, zAxis)` are pairwise orthogonal unit
vectors; the z-axis is the face's unit normal (unit, orthogonal to the
face); and the y-axis is the unit vector from the centroid to one of the
face's vertices. -/
def c7FaceOk (f : ComputedFace) : Bool :=
  V3.beq f.position (vmean f.unique) &&
  (QR.beq (V3.normSq f.xAxis) 1 && QR.beq (V3.normSq f.yAxis) 1 &&
   QR.beq (V3.normSq f.zAxis) 1) &&
  (QR.beq (V3.dot f.xAxis f.yAxis) 0 && QR.beq (V3.dot f.yAxis f.zAxis) 0 &&
   QR.beq (V3.dot f.xAxis f.zAxis) 0) &&
  (V3.beq f.zAxis f.normal && QR.beq (V3.normSq f.normal) 1 &&
   f.unique.all (fun v => QR.beq (V3.dot (v - f.position) f.normal) 0)) &&
  f.unique.any (fun v => V3.beq f.yAxis (V3.normalize (v - f.position)))

/-- C9 per-face check: among the 12 rotated definition directions the dot
product with the face normal attains its maximum exactly once (so "the
entry with maximal dot" is well defined), and `defIdx` is an index below
12. -/
def c9FaceOk (k : V3) (w : QR) (f : ComputedFace) : Bool :=
  let dots := faceDirections.map (fun d0 => V3.dot (quatApply k w (V3.normalize d0)) f.normal)
  let m := dots.foldl QR.max (qrFrac (-2) 1)
  ((dots.filter (fun d => QR.beq d m)).length == 1) && (f.defIdx < 12)

/-- Definition `j` is assigned to exactly one face. -/
def assignedOnce (faces : List ComputedFace) (j : Nat) : Bool :=
  (faces.filter (fun f => f.defIdx == j)).length == 1

/-! ### The animation timeline of `Dodecahedron` (`useFrame` callback)

Elapsed time (`clock.getElapsedTime()`, seconds) and frame deltas are
modelled as exact rationals. -/

/-- Phase timing constant (seconds): pentagon spins in place. -/
def SPIN_PHASE : ℚ := 2

/-- Phase timing constant (seconds): pentagon tilts + moves to bottom face. -/
def TILT_END : ℚ := 4

/-- Phase timing constant (seconds): edges fully drawn. -/
def EDGE_DRAW_END : ℚ := 7

/-- `PANEL_DELAY_MS = EDGE_DRAW_END * 1000`. -/
def PANEL_DELAY_MS : ℚ := EDGE_DRAW_END * 1000

/-- The four phases of the `useFrame` branch chain. -/
inductive Phase
  | spin
  | tilt
  | construct
  | tumble
deriving DecidableEq, Repr

/-- The branch of the `useFrame` callback selected at elapsed time `t`:
`t < SPIN_PHASE` → spin, else `t < TILT_END` → tilt, else
`t < EDGE_DRAW_END` → edge construction, else tumble. -/
def phaseAt (t : ℚ) : Phase :=
  if t < SPIN_PHASE then .spin
  else if t < TILT_END then .tilt
  else if t < EDGE_DRAW_END then .construct
  else .tumble

/-- Position of a phase in the intended order spin → tilt → construct →
tumble. -/
def phaseIdx : Phase → ℕ
  | .spin => 0
  | .tilt => 1
  | .construct => 2
  | .tumble => 3

/-- The number of edge cylinders revealed at elapsed time `t` out of
`total` (= `sortedEdges.length`): the edge-lines group is hidden during the
spin and tilt phases (`visible = false`, no cylinder shown); in the
edge-construct phase the code reveals `Math.ceil(ease * total)` cylinders
with `ease = 1 - (1-p)², p = (t - TILT_END)/(EDGE_DRAW_END - TILT_END)`;
from `EDGE_DRAW_END` on, all cylinders are set to their final state. -/
def edgeRevealCount (t : ℚ) (total : ℕ) : ℤ :=
  if t < TILT_END then 0
  else if t < EDGE_DRAW_END then
    ⌈(1 - (1 - (t - TILT_END) / (EDGE_DRAW_END - TILT_END)) ^ 2) * total⌉
  else total

/-- `THREE.MathUtils.lerp(x, y, t) = (1 - t) * x + t * y`. -/
def lerp (x y t : ℚ) : ℚ := (1 - t) * x + t * y

/-- The hover target of the tumble phase:
`isHovered ? ROTATE_SPEED * 0.15 : ROTATE_SPEED`.  `ROTATE_SPEED` is
`(2 * Math.PI) / 30`, which is transcendental; the dynamics are scale-free,
so they are modelled relative to an arbitrary rational rotate speed `R`. -/
def targetSpeed (R : ℚ) (isHovered : Bool) : ℚ :=
  if isHovered then R * (15 / 100) else R

/-- The per-frame speed update of the tumble phase:
`speedRef.current = lerp(speedRef.current, targetSpeed, 5 * delta)`. -/
def tumbleSpeedStep (R : ℚ) (isHovered : Bool) (speed delta : ℚ) : ℚ :=
  lerp speed (targetSpeed R isHovered) (5 * delta)

/-- One tumble-phase frame acting on `(speedRef, tumbleAngleRef)`: the
speed is lerped toward the hover target, then
`tumbleAngleRef.current += speedRef.current * delta` with the updated
speed. -/
def tumbleFrame (R : ℚ) (isHovered : Bool) (delta : ℚ) (st : ℚ × ℚ) : ℚ × ℚ :=
  let s := tumbleSpeedStep R isHovered st.1 delta
  (s, st.2 + s * delta)

/-- The tumble state after a list of frames (each `(isHovered, delta)`),
from the initial state `speedRef = ROTATE_SPEED`, `tumbleAngleRef = 0`. -/
def tumbleRun (R : ℚ) (frames : List (Bool × ℚ)) : ℚ × ℚ :=
  frames.foldl (fun st f => tumbleFrame R f.1 f.2 st) (R, 0)

/-! ### `FacePanel` visibility -/

/-- Observable state of one `FacePanel`: the `isFacingFront` React state,
and the DOM state the `useFrame` callback writes — whether the overlay is
visible (`style.opacity` is `'1'`, or its initial unset value, rather than
`'0'`) and whether pointer events are enabled (`style.pointerEvents` is
`'auto'` rather than `'none'`). -/
structure PanelState where
  isFacingFront : Bool
  visible : Bool
  pointer : Bool
deriving DecidableEq, Repr

/-- Initial `FacePanel` state: `useState(true)`, and the overlay `div`
starts visible with `pointerEvents: 'auto'`. -/
def panelInit : PanelState := ⟨true, true, true⟩

/-- One `useFrame` tick of `FacePanel`.  `dotVal` is the frame's value of
`worldNormal.dot(cameraDir)` (the world matrix and camera position are
runtime inputs; the geometry enters the component's logic only through this
dot product, so it is the model's per-frame input).  The code computes
`isFacing = dotVal > -0.05` and, only when it differs from the stored
`isFacingFront`, updates the state, sets `opacity`/`pointerEvents`
accordingly, and calls `onHoverFace(null)` when the panel turned away.  The
returned Bool reports whether `onHoverFace(null)` was called this frame. -/
def panelFrame (st : PanelState) (dotVal : ℚ) : PanelState × Bool :=
  let isFacing : Bool := decide (dotVal > -(1/20))
  if st.isFacingFront ≠ isFacing then
    (⟨isFacing, isFacing, isFacing⟩, !isFacing)
  else (st, false)

/-! ### The landing page's terminal typewriter (`TerminalText` of the home
page)

All lines are rendered at once; characters are revealed one at a time
across all lines sequentially, on a `setInterval(…, CHAR_SPEED_MS)` timer
started after a `setTimeout(…, FIRST_LINE_DELAY)`.  Text is modelled as
`List Char` (`text.slice(0, k)` ↦ `List.take k`). -/

/-- The `text` fields of `TERMINAL_LINES` (spacer entries are empty). -/
def TERMINAL_LINES : List (List Char) :=
  [("> portfolio").data,
   "".data,
   ("Simon").data,
   ("Shenghua Jin").data,
   "".data,
   ("Mechatronics engineer and software").data,
   ("developer with a passion for robotics,").data,
   ("machine learning, and building things").data,
   ("that bridge the digital-physical divide.").data,
   "".data,
   ("Currently studying at SFU, winning").data,
   ("hackathons, and pushing the boundaries").data,
   ("of what hardware and software can do").data,
   ("together.").data]

/-- `buildCharMap()`: all characters flattened as `(line, char)` index
pairs, lines in order. -/
def buildCharMap : List (ℕ × ℕ) :=
  (TERMINAL_LINES.enum).foldl
    (fun acc lt => acc ++ (List.range lt.2.length).map (fun c => (lt.1, c))) []

/-- `CHAR_MAP = buildCharMap()`. -/
def CHAR_MAP : List (ℕ × ℕ) := buildCharMap

/-- `CHAR_SPEED_MS = 20` (ms per character). -/
def CHAR_SPEED_MS : ℕ := 20

/-- `FIRST_LINE_DELAY = 2000` (ms before the interval starts). -/
def FIRST_LINE_DELAY : ℕ := 2000

/-- One interval tick: `setRevealedCount(prev => …)` — increment until
`CHAR_MAP.length`, then stop (and clear the interval). -/
def revealTick (prev : ℕ) : ℕ :=
  if prev ≥ CHAR_MAP.length then prev else prev + 1

/-- `revealedCount` after `n` interval ticks (`useState(0)` initially). -/
def revealedAfter : ℕ → ℕ
  | 0 => 0
  | n + 1 => revealTick (revealedAfter n)

/-- `revealedPerLine[l]`: the number of already-revealed characters
belonging to line `l` (the render loop counts `CHAR_MAP[i].line` over
`i < revealedCount`). -/
def revealedPerLine (revealedCount l : ℕ) : ℕ :=
  ((CHAR_MAP.take revealedCount).filter (fun p => p.1 == l)).length

/-- The displayed text of line `l`:
`line.text.slice(0, revealedPerLine[l])`. -/
def shownLine (revealedCount l : ℕ) : List Char :=
  (TERMINAL_LINES.getD l []).take (revealedPerLine revealedCount l)

/-- Boolean check that a char map lists line indices in non-decreasing
adjacent order (used to state that `CHAR_MAP` reveals lines in order). -/
def chainLineLe : List (ℕ × ℕ) → Bool
  | [] => true
  | [_] => true
  | a :: b :: t => (decide (a.1 ≤ b.1)) && chainLineLe (b :: t)

/-! ### Evaluated pipeline data

The following literals are the exact values computed by the pipeline above
(`createAlignedDodecGeo`, `extractSortedEdges`, `computeFacesOn`); the
theorems `alignedGeoEval`, `edgesLitEval` and `facesLitEval` below verify by
kernel evaluation that they are exactly those values.  They exist to let the
individual claim theorems reuse one evaluation of each pipeline stage.  (The
lists are split into chunks only to keep elaboration fast.) -/

/-- Chunk 0 of the corresponding evaluated list. -/
def alignedLitC0 : List V3 :=
  [⟨⟨0,0,5,-3,10⟩,⟨1,0,0,0,1⟩,⟨0,0,5,1,10⟩⟩,
   ⟨⟨0,0,0,1,5⟩,⟨-1,1,0,0,2⟩,⟨0,0,5,1,10⟩⟩,
   ⟨⟨0,0,5,1,10⟩,⟨1,0,0,0,1⟩,⟨0,0,-5,3,10⟩⟩,
   ⟨⟨0,0,5,-3,10⟩,⟨1,0,0,0,1⟩,⟨0,0,5,1,10⟩⟩,
   ⟨⟨0,0,5,1,10⟩,⟨1,0,0,0,1⟩,⟨0,0,-5,3,10⟩⟩,
   ⟨⟨0,0,5,-1,10⟩,⟨1,1,0,0,2⟩,⟨0,0,5,-3,10⟩⟩,
   ⟨⟨0,0,5,-3,10⟩,⟨1,0,0,0,1⟩,⟨0,0,5,1,10⟩⟩,
   ⟨⟨0,0,5,-1,10⟩,⟨1,1,0,0,2⟩,⟨0,0,5,-3,10⟩⟩,
   ⟨⟨0,0,-5,1,10⟩,⟨1,1,0,0,2⟩,⟨0,0,-5,3,10⟩⟩,
   ⟨⟨0,0,5,1,10⟩,⟨1,0,0,0,1⟩,⟨0,0,-5,3,10⟩⟩,
   ⟨⟨0,0,0,2,5⟩,⟨0,0,0,0,1⟩,⟨0,0,5,-3,10⟩⟩,
   ⟨⟨0,0,5,-1,5⟩,⟨0,0,0,0,1⟩,⟨0,0,-5,-1,10⟩⟩,
   ⟨⟨0,0,5,1,10⟩,⟨1,0,0,0,1⟩,⟨0,0,-5,3,10⟩⟩,
   ⟨⟨0,0,5,-1,5⟩,⟨0,0,0,0,1⟩,⟨0,0,-5,-1,10⟩⟩,
   ⟨⟨0,0,-5,3,10⟩,⟨1,0,0,0,1⟩,⟨0,0,-5,-1,10⟩⟩,
   ⟨⟨0,0,5,1,10⟩,⟨1,0,0,0,1⟩,⟨0,0,-5,3,10⟩⟩,
   ⟨⟨0,0,-5,3,10⟩,⟨1,0,0,0,1⟩,⟨0,0,-5,-1,10⟩⟩,
   ⟨⟨0,0,5,-1,10⟩,⟨1,1,0,0,2⟩,⟨0,0,5,-3,10⟩⟩]

/-- Chunk 1 of the corresponding evaluated list. -/
def alignedLitC1 : List V3 :=
  [⟨⟨0,0,5,-1,5⟩,⟨0,0,0,0,1⟩,⟨0,0,-5,-1,10⟩⟩,
   ⟨⟨0,0,-5,3,10⟩,⟨-1,0,0,0,1⟩,⟨0,0,-5,-1,10⟩⟩,
   ⟨⟨0,0,0,-1,5⟩,⟨1,-1,0,0,2⟩,⟨0,0,-5,-1,10⟩⟩,
   ⟨⟨0,0,5,-1,5⟩,⟨0,0,0,0,1⟩,⟨0,0,-5,-1,10⟩⟩,
   ⟨⟨0,0,0,-1,5⟩,⟨1,-1,0,0,2⟩,⟨0,0,-5,-1,10⟩⟩,
   ⟨⟨0,0,0,-1,5⟩,⟨-1,1,0,0,2⟩,⟨0,0,-5,-1,10⟩⟩,
   ⟨⟨0,0,5,-1,5⟩,⟨0,0,0,0,1⟩,⟨0,0,-5,-1,10⟩⟩,
   ⟨⟨0,0,0,-1,5⟩,⟨-1,1,0,0,2⟩,⟨0,0,-5,-1,10⟩⟩,
   ⟨⟨0,0,-5,3,10⟩,⟨1,0,0,0,1⟩,⟨0,0,-5,-1,10⟩⟩,
   ⟨⟨0,0,0,-1,5⟩,⟨1,-1,0,0,2⟩,⟨0,0,-5,-1,10⟩⟩,
   ⟨⟨0,0,-5,-1,10⟩,⟨-1,0,0,0,1⟩,⟨0,0,5,-3,10⟩⟩,
   ⟨⟨0,0,0,-2,5⟩,⟨0,0,0,0,1⟩,⟨0,0,-5,3,10⟩⟩,
   ⟨⟨0,0,0,-1,5⟩,⟨1,-1,0,0,2⟩,⟨0,0,-5,-1,10⟩⟩,
   ⟨⟨0,0,0,-2,5⟩,⟨0,0,0,0,1⟩,⟨0,0,-5,3,10⟩⟩,
   ⟨⟨0,0,-5,-1,10⟩,⟨1,0,0,0,1⟩,⟨0,0,5,-3,10⟩⟩,
   ⟨⟨0,0,0,-1,5⟩,⟨1,-1,0,0,2⟩,⟨0,0,-5,-1,10⟩⟩,
   ⟨⟨0,0,-5,-1,10⟩,⟨1,0,0,0,1⟩,⟨0,0,5,-3,10⟩⟩,
   ⟨⟨0,0,0,-1,5⟩,⟨-1,1,0,0,2⟩,⟨0,0,-5,-1,10⟩⟩]

/-- Chunk 2 of the corresponding evaluated list. -/
def alignedLitC2 : List V3 :=
  [⟨⟨0,0,-5,-1,10⟩,⟨-1,0,0,0,1⟩,⟨0,0,5,-3,10⟩⟩,
   ⟨⟨0,0,-5,1,10⟩,⟨-1,-1,0,0,2⟩,⟨0,0,-5,3,10⟩⟩,
   ⟨⟨0,0,5,-3,10⟩,⟨-1,0,0,0,1⟩,⟨0,0,5,1,10⟩⟩,
   ⟨⟨0,0,-5,-1,10⟩,⟨-1,0,0,0,1⟩,⟨0,0,5,-3,10⟩⟩,
   ⟨⟨0,0,5,-3,10⟩,⟨-1,0,0,0,1⟩,⟨0,0,5,1,10⟩⟩,
   ⟨⟨0,0,-5,1,5⟩,⟨0,0,0,0,1⟩,⟨0,0,5,1,10⟩⟩,
   ⟨⟨0,0,-5,-1,10⟩,⟨-1,0,0,0,1⟩,⟨0,0,5,-3,10⟩⟩,
   ⟨⟨0,0,-5,1,5⟩,⟨0,0,0,0,1⟩,⟨0,0,5,1,10⟩⟩,
   ⟨⟨0,0,0,-2,5⟩,⟨0,0,0,0,1⟩,⟨0,0,-5,3,10⟩⟩,
   ⟨⟨0,0,-5,3,10⟩,⟨1,0,0,0,1⟩,⟨0,0,-5,-1,10⟩⟩,
   ⟨⟨0,0,0,-1,5⟩,⟨-1,1,0,0,2⟩,⟨0,0,-5,-1,10⟩⟩,
   ⟨⟨0,0,-5,-1,10⟩,⟨1,0,0,0,1⟩,⟨0,0,5,-3,10⟩⟩,
   ⟨⟨0,0,-5,3,10⟩,⟨1,0,0,0,1⟩,⟨0,0,-5,-1,10⟩⟩,
   ⟨⟨0,0,-5,-1,10⟩,⟨1,0,0,0,1⟩,⟨0,0,5,-3,10⟩⟩,
   ⟨⟨0,0,-5,1,10⟩,⟨1,1,0,0,2⟩,⟨0,0,-5,3,10⟩⟩,
   ⟨⟨0,0,-5,3,10⟩,⟨1,0,0,0,1⟩,⟨0,0,-5,-1,10⟩⟩,
   ⟨⟨0,0,-5,1,10⟩,⟨1,1,0,0,2⟩,⟨0,0,-5,3,10⟩⟩,
   ⟨⟨0,0,5,-1,10⟩,⟨1,1,0,0,2⟩,⟨0,0,5,-3,10⟩⟩]

/-- Chunk 3 of the corresponding evaluated list. -/
def alignedLitC3 : List V3 :=
  [⟨⟨0,0,-5,-1,10⟩,⟨1,0,0,0,1⟩,⟨0,0,5,-3,10⟩⟩,
   ⟨⟨0,0,0,-2,5⟩,⟨0,0,0,0,1⟩,⟨0,0,-5,3,10⟩⟩,
   ⟨⟨0,0,-5,1,5⟩,⟨0,0,0,0,1⟩,⟨0,0,5,1,10⟩⟩,
   ⟨⟨0,0,-5,-1,10⟩,⟨1,0,0,0,1⟩,⟨0,0,5,-3,10⟩⟩,
   ⟨⟨0,0,-5,1,5⟩,⟨0,0,0,0,1⟩,⟨0,0,5,1,10⟩⟩,
   ⟨⟨0,0,5,-3,10⟩,⟨1,0,0,0,1⟩,⟨0,0,5,1,10⟩⟩,
   ⟨⟨0,0,-5,-1,10⟩,⟨1,0,0,0,1⟩,⟨0,0,5,-3,10⟩⟩,
   ⟨⟨0,0,5,-3,10⟩,⟨1,0,0,0,1⟩,⟨0,0,5,1,10⟩⟩,
   ⟨⟨0,0,-5,1,10⟩,⟨1,1,0,0,2⟩,⟨0,0,-5,3,10⟩⟩,
   ⟨⟨0,0,-5,1,5⟩,⟨0,0,0,0,1⟩,⟨0,0,5,1,10⟩⟩,
   ⟨⟨0,0,5,-3,10⟩,⟨-1,0,0,0,1⟩,⟨0,0,5,1,10⟩⟩,
   ⟨⟨0,0,0,1,5⟩,⟨1,-1,0,0,2⟩,⟨0,0,5,1,10⟩⟩,
   ⟨⟨0,0,-5,1,5⟩,⟨0,0,0,0,1⟩,⟨0,0,5,1,10⟩⟩,
   ⟨⟨0,0,0,1,5⟩,⟨1,-1,0,0,2⟩,⟨0,0,5,1,10⟩⟩,
   ⟨⟨0,0,0,1,5⟩,⟨-1,1,0,0,2⟩,⟨0,0,5,1,10⟩⟩,
   ⟨⟨0,0,-5,1,5⟩,⟨0,0,0,0,1⟩,⟨0,0,5,1,10⟩⟩,
   ⟨⟨0,0,0,1,5⟩,⟨-1,1,0,0,2⟩,⟨0,0,5,1,10⟩⟩,
   ⟨⟨0,0,5,-3,10⟩,⟨1,0,0,0,1⟩,⟨0,0,5,1,10⟩⟩]

/-- Chunk 4 of the corresponding evaluated list. -/
def alignedLitC4 : List V3 :=
  [⟨⟨0,0,-5,3,10⟩,⟨-1,0,0,0,1⟩,⟨0,0,-5,-1,10⟩⟩,
   ⟨⟨0,0,5,-1,10⟩,⟨-1,-1,0,0,2⟩,⟨0,0,5,-3,10⟩⟩,
   ⟨⟨0,0,-5,1,10⟩,⟨-1,-1,0,0,2⟩,⟨0,0,-5,3,10⟩⟩,
   ⟨⟨0,0,-5,3,10⟩,⟨-1,0,0,0,1⟩,⟨0,0,-5,-1,10⟩⟩,
   ⟨⟨0,0,-5,1,10⟩,⟨-1,-1,0,0,2⟩,⟨0,0,-5,3,10⟩⟩,
   ⟨⟨0,0,-5,-1,10⟩,⟨-1,0,0,0,1⟩,⟨0,0,5,-3,10⟩⟩,
   ⟨⟨0,0,-5,3,10⟩,⟨-1,0,0,0,1⟩,⟨0,0,-5,-1,10⟩⟩,
   ⟨⟨0,0,-5,-1,10⟩,⟨-1,0,0,0,1⟩,⟨0,0,5,-3,10⟩⟩,
   ⟨⟨0,0,0,-1,5⟩,⟨1,-1,0,0,2⟩,⟨0,0,-5,-1,10⟩⟩,
   ⟨⟨0,0,0,1,5⟩,⟨-1,1,0,0,2⟩,⟨0,0,5,1,10⟩⟩,
   ⟨⟨0,0,0,1,5⟩,⟨1,-1,0,0,2⟩,⟨0,0,5,1,10⟩⟩,
   ⟨⟨0,0,5,1,10⟩,⟨-1,0,0,0,1⟩,⟨0,0,-5,3,10⟩⟩,
   ⟨⟨0,0,0,1,5⟩,⟨-1,1,0,0,2⟩,⟨0,0,5,1,10⟩⟩,
   ⟨⟨0,0,5,1,10⟩,⟨-1,0,0,0,1⟩,⟨0,0,-5,3,10⟩⟩,
   ⟨⟨0,0,0,2,5⟩,⟨0,0,0,0,1⟩,⟨0,0,5,-3,10⟩⟩,
   ⟨⟨0,0,0,1,5⟩,⟨-1,1,0,0,2⟩,⟨0,0,5,1,10⟩⟩,
   ⟨⟨0,0,0,2,5⟩,⟨0,0,0,0,1⟩,⟨0,0,5,-3,10⟩⟩,
   ⟨⟨0,0,5,1,10⟩,⟨1,0,0,0,1⟩,⟨0,0,-5,3,10⟩⟩]

/-- Chunk 5 of the corresponding evaluated list. -/
def alignedLitC5 : List V3 :=
  [⟨⟨0,0,0,2,5⟩,⟨0,0,0,0,1⟩,⟨0,0,5,-3,10⟩⟩,
   ⟨⟨0,0,5,1,10⟩,⟨-1,0,0,0,1⟩,⟨0,0,-5,3,10⟩⟩,
   ⟨⟨0,0,5,-1,10⟩,⟨-1,-1,0,0,2⟩,⟨0,0,5,-3,10⟩⟩,
   ⟨⟨0,0,0,2,5⟩,⟨0,0,0,0,1⟩,⟨0,0,5,-3,10⟩⟩,
   ⟨⟨0,0,5,-1,10⟩,⟨-1,-1,0,0,2⟩,⟨0,0,5,-3,10⟩⟩,
   ⟨⟨0,0,-5,3,10⟩,⟨-1,0,0,0,1⟩,⟨0,0,-5,-1,10⟩⟩,
   ⟨⟨0,0,0,2,5⟩,⟨0,0,0,0,1⟩,⟨0,0,5,-3,10⟩⟩,
   ⟨⟨0,0,-5,3,10⟩,⟨-1,0,0,0,1⟩,⟨0,0,-5,-1,10⟩⟩,
   ⟨⟨0,0,5,-1,5⟩,⟨0,0,0,0,1⟩,⟨0,0,-5,-1,10⟩⟩,
   ⟨⟨0,0,5,-3,10⟩,⟨-1,0,0,0,1⟩,⟨0,0,5,1,10⟩⟩,
   ⟨⟨0,0,-5,1,10⟩,⟨-1,-1,0,0,2⟩,⟨0,0,-5,3,10⟩⟩,
   ⟨⟨0,0,5,-1,10⟩,⟨-1,-1,0,0,2⟩,⟨0,0,5,-3,10⟩⟩,
   ⟨⟨0,0,5,-3,10⟩,⟨-1,0,0,0,1⟩,⟨0,0,5,1,10⟩⟩,
   ⟨⟨0,0,5,-1,10⟩,⟨-1,-1,0,0,2⟩,⟨0,0,5,-3,10⟩⟩,
   ⟨⟨0,0,5,1,10⟩,⟨-1,0,0,0,1⟩,⟨0,0,-5,3,10⟩⟩,
   ⟨⟨0,0,5,-3,10⟩,⟨-1,0,0,0,1⟩,⟨0,0,5,1,10⟩⟩,
   ⟨⟨0,0,5,1,10⟩,⟨-1,0,0,0,1⟩,⟨0,0,-5,3,10⟩⟩,
   ⟨⟨0,0,0,1,5⟩,⟨1,-1,0,0,2⟩,⟨0,0,5,1,10⟩⟩]

/-- The aligned position list, as evaluated data (see `alignedGeoEval`). -/
def alignedLit : List V3 := alignedLitC0 ++ alignedLitC1 ++ alignedLitC2 ++ alignedLitC3 ++ alignedLitC4 ++ alignedLitC5

/-- The align quaternion vector part, as evaluated data (see `alignedGeoEval`). -/
def alignKLit : V3 := ⟨⟨0,0,0,0,1⟩,⟨0,0,5,-1,10⟩,⟨0,0,0,0,1⟩⟩

/-- The align quaternion scalar part, as evaluated data (see `alignedGeoEval`). -/
def alignWLit : QR := ⟨5,0,0,1,5⟩

/-- The bottom face center, as evaluated data (see `alignedGeoEval`). -/
def bottomCenterLit : V3 := ⟨⟨0,0,-10,4,45⟩,⟨0,0,0,0,1⟩,⟨0,0,5,1,10⟩⟩

/-- Chunk 0 of the corresponding evaluated list. -/
def edgesLitC0 : List SortedEdge :=
  [⟨⟨⟨0,0,0,-2,5⟩,⟨0,0,0,0,1⟩,⟨0,0,-5,3,10⟩⟩,⟨⟨0,0,-5,1,5⟩,⟨0,0,0,0,1⟩,⟨0,0,5,1,10⟩⟩,⟨0,0,-5,-1,10⟩⟩,
   ⟨⟨⟨0,0,5,-3,10⟩,⟨1,0,0,0,1⟩,⟨0,0,5,1,10⟩⟩,⟨⟨0,0,-5,1,10⟩,⟨1,1,0,0,2⟩,⟨0,0,-5,3,10⟩⟩,⟨0,0,-5,-1,10⟩⟩,
   ⟨⟨⟨0,0,-5,1,5⟩,⟨0,0,0,0,1⟩,⟨0,0,5,1,10⟩⟩,⟨⟨0,0,5,-3,10⟩,⟨-1,0,0,0,1⟩,⟨0,0,5,1,10⟩⟩,⟨0,0,-5,-1,10⟩⟩,
   ⟨⟨⟨0,0,0,1,5⟩,⟨-1,1,0,0,2⟩,⟨0,0,5,1,10⟩⟩,⟨⟨0,0,5,-3,10⟩,⟨1,0,0,0,1⟩,⟨0,0,5,1,10⟩⟩,⟨0,0,-5,-1,10⟩⟩,
   ⟨⟨⟨0,0,5,-3,10⟩,⟨1,0,0,0,1⟩,⟨0,0,5,1,10⟩⟩,⟨⟨0,0,-5,1,5⟩,⟨0,0,0,0,1⟩,⟨0,0,5,1,10⟩⟩,⟨0,0,-5,-1,10⟩⟩,
   ⟨⟨⟨0,0,0,1,5⟩,⟨-1,1,0,0,2⟩,⟨0,0,5,1,10⟩⟩,⟨⟨0,0,0,1,5⟩,⟨1,-1,0,0,2⟩,⟨0,0,5,1,10⟩⟩,⟨0,0,-5,-1,10⟩⟩,
   ⟨⟨⟨0,0,5,1,10⟩,⟨1,0,0,0,1⟩,⟨0,0,-5,3,10⟩⟩,⟨⟨0,0,0,1,5⟩,⟨-1,1,0,0,2⟩,⟨0,0,5,1,10⟩⟩,⟨0,0,-5,-1,10⟩⟩,
   ⟨⟨⟨0,0,5,-3,10⟩,⟨-1,0,0,0,1⟩,⟨0,0,5,1,10⟩⟩,⟨⟨0,0,-5,1,10⟩,⟨-1,-1,0,0,2⟩,⟨0,0,-5,3,10⟩⟩,⟨0,0,-5,-1,10⟩⟩]

/-- Chunk 1 of the corresponding evaluated list. -/
def edgesLitC1 : List SortedEdge :=
  [⟨⟨⟨0,0,5,1,10⟩,⟨-1,0,0,0,1⟩,⟨0,0,-5,3,10⟩⟩,⟨⟨0,0,0,1,5⟩,⟨1,-1,0,0,2⟩,⟨0,0,5,1,10⟩⟩,⟨0,0,-5,-1,10⟩⟩,
   ⟨⟨⟨0,0,0,1,5⟩,⟨1,-1,0,0,2⟩,⟨0,0,5,1,10⟩⟩,⟨⟨0,0,5,-3,10⟩,⟨-1,0,0,0,1⟩,⟨0,0,5,1,10⟩⟩,⟨0,0,-5,-1,10⟩⟩,
   ⟨⟨⟨0,0,5,-1,10⟩,⟨1,1,0,0,2⟩,⟨0,0,5,-3,10⟩⟩,⟨⟨0,0,5,1,10⟩,⟨1,0,0,0,1⟩,⟨0,0,-5,3,10⟩⟩,⟨0,0,5,-3,10⟩⟩,
   ⟨⟨⟨0,0,0,-2,5⟩,⟨0,0,0,0,1⟩,⟨0,0,-5,3,10⟩⟩,⟨⟨0,0,-5,-1,10⟩,⟨-1,0,0,0,1⟩,⟨0,0,5,-3,10⟩⟩,⟨0,0,5,-3,10⟩⟩,
   ⟨⟨⟨0,0,-5,1,10⟩,⟨1,1,0,0,2⟩,⟨0,0,-5,3,10⟩⟩,⟨⟨0,0,5,-1,10⟩,⟨1,1,0,0,2⟩,⟨0,0,5,-3,10⟩⟩,⟨0,0,5,-3,10⟩⟩,
   ⟨⟨⟨0,0,-5,-1,10⟩,⟨1,0,0,0,1⟩,⟨0,0,5,-3,10⟩⟩,⟨⟨0,0,0,-2,5⟩,⟨0,0,0,0,1⟩,⟨0,0,-5,3,10⟩⟩,⟨0,0,5,-3,10⟩⟩,
   ⟨⟨⟨0,0,-5,1,10⟩,⟨1,1,0,0,2⟩,⟨0,0,-5,3,10⟩⟩,⟨⟨0,0,-5,-1,10⟩,⟨1,0,0,0,1⟩,⟨0,0,5,-3,10⟩⟩,⟨0,0,5,-3,10⟩⟩,
   ⟨⟨⟨0,0,-5,1,10⟩,⟨-1,-1,0,0,2⟩,⟨0,0,-5,3,10⟩⟩,⟨⟨0,0,-5,-1,10⟩,⟨-1,0,0,0,1⟩,⟨0,0,5,-3,10⟩⟩,⟨0,0,5,-3,10⟩⟩]

/-- Chunk 2 of the corresponding evaluated list. -/
def edgesLitC2 : List SortedEdge :=
  [⟨⟨⟨0,0,0,2,5⟩,⟨0,0,0,0,1⟩,⟨0,0,5,-3,10⟩⟩,⟨⟨0,0,5,1,10⟩,⟨1,0,0,0,1⟩,⟨0,0,-5,3,10⟩⟩,⟨0,0,5,-3,10⟩⟩,
   ⟨⟨⟨0,0,0,2,5⟩,⟨0,0,0,0,1⟩,⟨0,0,5,-3,10⟩⟩,⟨⟨0,0,5,1,10⟩,⟨-1,0,0,0,1⟩,⟨0,0,-5,3,10⟩⟩,⟨0,0,5,-3,10⟩⟩,
   ⟨⟨⟨0,0,-5,1,10⟩,⟨-1,-1,0,0,2⟩,⟨0,0,-5,3,10⟩⟩,⟨⟨0,0,5,-1,10⟩,⟨-1,-1,0,0,2⟩,⟨0,0,5,-3,10⟩⟩,⟨0,0,5,-3,10⟩⟩,
   ⟨⟨⟨0,0,5,-1,10⟩,⟨-1,-1,0,0,2⟩,⟨0,0,5,-3,10⟩⟩,⟨⟨0,0,5,1,10⟩,⟨-1,0,0,0,1⟩,⟨0,0,-5,3,10⟩⟩,⟨0,0,5,-3,10⟩⟩,
   ⟨⟨⟨0,0,0,-1,5⟩,⟨-1,1,0,0,2⟩,⟨0,0,-5,-1,10⟩⟩,⟨⟨0,0,-5,-1,10⟩,⟨1,0,0,0,1⟩,⟨0,0,5,-3,10⟩⟩,⟨0,0,-5,3,10⟩⟩,
   ⟨⟨⟨0,0,5,-1,10⟩,⟨1,1,0,0,2⟩,⟨0,0,5,-3,10⟩⟩,⟨⟨0,0,-5,3,10⟩,⟨1,0,0,0,1⟩,⟨0,0,-5,-1,10⟩⟩,⟨0,0,-5,3,10⟩⟩,
   ⟨⟨⟨0,0,-5,-1,10⟩,⟨-1,0,0,0,1⟩,⟨0,0,5,-3,10⟩⟩,⟨⟨0,0,0,-1,5⟩,⟨1,-1,0,0,2⟩,⟨0,0,-5,-1,10⟩⟩,⟨0,0,-5,3,10⟩⟩,
   ⟨⟨⟨0,0,5,-1,10⟩,⟨-1,-1,0,0,2⟩,⟨0,0,5,-3,10⟩⟩,⟨⟨0,0,-5,3,10⟩,⟨-1,0,0,0,1⟩,⟨0,0,-5,-1,10⟩⟩,⟨0,0,-5,3,10⟩⟩]

/-- Chunk 3 of the corresponding evaluated list. -/
def edgesLitC3 : List SortedEdge :=
  [⟨⟨⟨0,0,5,-1,5⟩,⟨0,0,0,0,1⟩,⟨0,0,-5,-1,10⟩⟩,⟨⟨0,0,0,2,5⟩,⟨0,0,0,0,1⟩,⟨0,0,5,-3,10⟩⟩,⟨0,0,-5,3,10⟩⟩,
   ⟨⟨⟨0,0,-5,3,10⟩,⟨1,0,0,0,1⟩,⟨0,0,-5,-1,10⟩⟩,⟨⟨0,0,5,-1,5⟩,⟨0,0,0,0,1⟩,⟨0,0,-5,-1,10⟩⟩,⟨0,0,5,1,10⟩⟩,
   ⟨⟨⟨0,0,0,-1,5⟩,⟨-1,1,0,0,2⟩,⟨0,0,-5,-1,10⟩⟩,⟨⟨0,0,0,-1,5⟩,⟨1,-1,0,0,2⟩,⟨0,0,-5,-1,10⟩⟩,⟨0,0,5,1,10⟩⟩,
   ⟨⟨⟨0,0,-5,3,10⟩,⟨1,0,0,0,1⟩,⟨0,0,-5,-1,10⟩⟩,⟨⟨0,0,0,-1,5⟩,⟨-1,1,0,0,2⟩,⟨0,0,-5,-1,10⟩⟩,⟨0,0,5,1,10⟩⟩,
   ⟨⟨⟨0,0,0,-1,5⟩,⟨1,-1,0,0,2⟩,⟨0,0,-5,-1,10⟩⟩,⟨⟨0,0,-5,3,10⟩,⟨-1,0,0,0,1⟩,⟨0,0,-5,-1,10⟩⟩,⟨0,0,5,1,10⟩⟩,
   ⟨⟨⟨0,0,-5,3,10⟩,⟨-1,0,0,0,1⟩,⟨0,0,-5,-1,10⟩⟩,⟨⟨0,0,5,-1,5⟩,⟨0,0,0,0,1⟩,⟨0,0,-5,-1,10⟩⟩,⟨0,0,5,1,10⟩⟩]

/-- The sorted edge list, as evaluated data (see `edgesLitEval`). -/
def edgesLit : List SortedEdge := edgesLitC0 ++ edgesLitC1 ++ edgesLitC2 ++ edgesLitC3

/-- Item 0 of the corresponding evaluated list. -/
def groupsLitG0 : TriGroup :=
  ⟨[⟨⟨0,0,5,-3,10⟩,⟨1,0,0,0,1⟩,⟨0,0,5,1,10⟩⟩,
    ⟨⟨0,0,0,1,5⟩,⟨-1,1,0,0,2⟩,⟨0,0,5,1,10⟩⟩,
    ⟨⟨0,0,5,1,10⟩,⟨1,0,0,0,1⟩,⟨0,0,-5,3,10⟩⟩,
    ⟨⟨0,0,5,-3,10⟩,⟨1,0,0,0,1⟩,⟨0,0,5,1,10⟩⟩,
    ⟨⟨0,0,5,1,10⟩,⟨1,0,0,0,1⟩,⟨0,0,-5,3,10⟩⟩,
    ⟨⟨0,0,5,-1,10⟩,⟨1,1,0,0,2⟩,⟨0,0,5,-3,10⟩⟩,
    ⟨⟨0,0,5,-3,10⟩,⟨1,0,0,0,1⟩,⟨0,0,5,1,10⟩⟩,
    ⟨⟨0,0,5,-1,10⟩,⟨1,1,0,0,2⟩,⟨0,0,5,-3,10⟩⟩,
    ⟨⟨0,0,-5,1,10⟩,⟨1,1,0,0,2⟩,⟨0,0,-5,3,10⟩⟩],
   ⟨⟨5,-1,0,0,10⟩,⟨0,0,0,1,5⟩,⟨0,1,0,0,5⟩⟩⟩

/-- Item 1 of the corresponding evaluated list. -/
def groupsLitG1 : TriGroup :=
  ⟨[⟨⟨0,0,5,1,10⟩,⟨1,0,0,0,1⟩,⟨0,0,-5,3,10⟩⟩,
    ⟨⟨0,0,0,2,5⟩,⟨0,0,0,0,1⟩,⟨0,0,5,-3,10⟩⟩,
    ⟨⟨0,0,5,-1,5⟩,⟨0,0,0,0,1⟩,⟨0,0,-5,-1,10⟩⟩,
    ⟨⟨0,0,5,1,10⟩,⟨1,0,0,0,1⟩,⟨0,0,-5,3,10⟩⟩,
    ⟨⟨0,0,5,-1,5⟩,⟨0,0,0,0,1⟩,⟨0,0,-5,-1,10⟩⟩,
    ⟨⟨0,0,-5,3,10⟩,⟨1,0,0,0,1⟩,⟨0,0,-5,-1,10⟩⟩,
    ⟨⟨0,0,5,1,10⟩,⟨1,0,0,0,1⟩,⟨0,0,-5,3,10⟩⟩,
    ⟨⟨0,0,-5,3,10⟩,⟨1,0,0,0,1⟩,⟨0,0,-5,-1,10⟩⟩,
    ⟨⟨0,0,5,-1,10⟩,⟨1,1,0,0,2⟩,⟨0,0,5,-3,10⟩⟩],
   ⟨⟨5,1,0,0,10⟩,⟨0,0,5,-1,10⟩,⟨0,-1,0,0,5⟩⟩⟩

/-- Item 2 of the corresponding evaluated list. -/
def groupsLitG2 : TriGroup :=
  ⟨[⟨⟨0,0,5,-1,5⟩,⟨0,0,0,0,1⟩,⟨0,0,-5,-1,10⟩⟩,
    ⟨⟨0,0,-5,3,10⟩,⟨-1,0,0,0,1⟩,⟨0,0,-5,-1,10⟩⟩,
    ⟨⟨0,0,0,-1,5⟩,⟨1,-1,0,0,2⟩,⟨0,0,-5,-1,10⟩⟩,
    ⟨⟨0,0,5,-1,5⟩,⟨0,0,0,0,1⟩,⟨0,0,-5,-1,10⟩⟩,
    ⟨⟨0,0,0,-1,5⟩,⟨1,-1,0,0,2⟩,⟨0,0,-5,-1,10⟩⟩,
    ⟨⟨0,0,0,-1,5⟩,⟨-1,1,0,0,2⟩,⟨0,0,-5,-1,10⟩⟩,
    ⟨⟨0,0,5,-1,5⟩,⟨0,0,0,0,1⟩,⟨0,0,-5,-1,10⟩⟩,
    ⟨⟨0,0,0,-1,5⟩,⟨-1,1,0,0,2⟩,⟨0,0,-5,-1,10⟩⟩,
    ⟨⟨0,0,-5,3,10⟩,⟨1,0,0,0,1⟩,⟨0,0,-5,-1,10⟩⟩],
   ⟨⟨0,0,0,0,1⟩,⟨0,0,0,0,1⟩,⟨-1,0,0,0,1⟩⟩⟩

/-- Item 3 of the corresponding evaluated list. -/
def groupsLitG3 : TriGroup :=
  ⟨[⟨⟨0,0,0,-1,5⟩,⟨1,-1,0,0,2⟩,⟨0,0,-5,-1,10⟩⟩,
    ⟨⟨0,0,-5,-1,10⟩,⟨-1,0,0,0,1⟩,⟨0,0,5,-3,10⟩⟩,
    ⟨⟨0,0,0,-2,5⟩,⟨0,0,0,0,1⟩,⟨0,0,-5,3,10⟩⟩,
    ⟨⟨0,0,0,-1,5⟩,⟨1,-1,0,0,2⟩,⟨0,0,-5,-1,10⟩⟩,
    ⟨⟨0,0,0,-2,5⟩,⟨0,0,0,0,1⟩,⟨0,0,-5,3,10⟩⟩,
    ⟨⟨0,0,-5,-1,10⟩,⟨1,0,0,0,1⟩,⟨0,0,5,-3,10⟩⟩,
    ⟨⟨0,0,0,-1,5⟩,⟨1,-1,0,0,2⟩,⟨0,0,-5,-1,10⟩⟩,
    ⟨⟨0,0,-5,-1,10⟩,⟨1,0,0,0,1⟩,⟨0,0,5,-3,10⟩⟩,
    ⟨⟨0,0,0,-1,5⟩,⟨-1,1,0,0,2⟩,⟨0,0,-5,-1,10⟩⟩],
   ⟨⟨0,-2,0,0,5⟩,⟨0,0,0,0,1⟩,⟨0,-1,0,0,5⟩⟩⟩

/-- Item 4 of the corresponding evaluated list. -/
def groupsLitG4 : TriGroup :=
  ⟨[⟨⟨0,0,-5,-1,10⟩,⟨-1,0,0,0,1⟩,⟨0,0,5,-3,10⟩⟩,
    ⟨⟨0,0,-5,1,10⟩,⟨-1,-1,0,0,2⟩,⟨0,0,-5,3,10⟩⟩,
    ⟨⟨0,0,5,-3,10⟩,⟨-1,0,0,0,1⟩,⟨0,0,5,1,10⟩⟩,
    ⟨⟨0,0,-5,-1,10⟩,⟨-1,0,0,0,1⟩,⟨0,0,5,-3,10⟩⟩,
    ⟨⟨0,0,5,-3,10⟩,⟨-1,0,0,0,1⟩,⟨0,0,5,1,10⟩⟩,
    ⟨⟨0,0,-5,1,5⟩,⟨0,0,0,0,1⟩,⟨0,0,5,1,10⟩⟩,
    ⟨⟨0,0,-5,-1,10⟩,⟨-1,0,0,0,1⟩,⟨0,0,5,-3,10⟩⟩,
    ⟨⟨0,0,-5,1,5⟩,⟨0,0,0,0,1⟩,⟨0,0,5,1,10⟩⟩,
    ⟨⟨0,0,0,-2,5⟩,⟨0,0,0,0,1⟩,⟨0,0,-5,3,10⟩⟩],
   ⟨⟨-5,-1,0,0,10⟩,⟨0,0,-5,1,10⟩,⟨0,1,0,0,5⟩⟩⟩

/-- Item 5 of the corresponding evaluated list. -/
def groupsLitG5 : TriGroup :=
  ⟨[⟨⟨0,0,-5,3,10⟩,⟨1,0,0,0,1⟩,⟨0,0,-5,-1,10⟩⟩,
    ⟨⟨0,0,0,-1,5⟩,⟨-1,1,0,0,2⟩,⟨0,0,-5,-1,10⟩⟩,
    ⟨⟨0,0,-5,-1,10⟩,⟨1,0,0,0,1⟩,⟨0,0,5,-3,10⟩⟩,
    ⟨⟨0,0,-5,3,10⟩,⟨1,0,0,0,1⟩,⟨0,0,-5,-1,10⟩⟩,
    ⟨⟨0,0,-5,-1,10⟩,⟨1,0,0,0,1⟩,⟨0,0,5,-3,10⟩⟩,
    ⟨⟨0,0,-5,1,10⟩,⟨1,1,0,0,2⟩,⟨0,0,-5,3,10⟩⟩,
    ⟨⟨0,0,-5,3,10⟩,⟨1,0,0,0,1⟩,⟨0,0,-5,-1,10⟩⟩,
    ⟨⟨0,0,-5,1,10⟩,⟨1,1,0,0,2⟩,⟨0,0,-5,3,10⟩⟩,
    ⟨⟨0,0,5,-1,10⟩,⟨1,1,0,0,2⟩,⟨0,0,5,-3,10⟩⟩],
   ⟨⟨-5,1,0,0,10⟩,⟨0,0,0,1,5⟩,⟨0,-1,0,0,5⟩⟩⟩

/-- Item 6 of the corresponding evaluated list. -/
def groupsLitG6 : TriGroup :=
  ⟨[⟨⟨0,0,-5,-1,10⟩,⟨1,0,0,0,1⟩,⟨0,0,5,-3,10⟩⟩,
    ⟨⟨0,0,0,-2,5⟩,⟨0,0,0,0,1⟩,⟨0,0,-5,3,10⟩⟩,
    ⟨⟨0,0,-5,1,5⟩,⟨0,0,0,0,1⟩,⟨0,0,5,1,10⟩⟩,
    ⟨⟨0,0,-5,-1,10⟩,⟨1,0,0,0,1⟩,⟨0,0,5,-3,10⟩⟩,
    ⟨⟨0,0,-5,1,5⟩,⟨0,0,0,0,1⟩,⟨0,0,5,1,10⟩⟩,
    ⟨⟨0,0,5,-3,10⟩,⟨1,0,0,0,1⟩,⟨0,0,5,1,10⟩⟩,
    ⟨⟨0,0,-5,-1,10⟩,⟨1,0,0,0,1⟩,⟨0,0,5,-3,10⟩⟩,
    ⟨⟨0,0,5,-3,10⟩,⟨1,0,0,0,1⟩,⟨0,0,5,1,10⟩⟩,
    ⟨⟨0,0,-5,1,10⟩,⟨1,1,0,0,2⟩,⟨0,0,-5,3,10⟩⟩],
   ⟨⟨-5,-1,0,0,10⟩,⟨0,0,5,-1,10⟩,⟨0,1,0,0,5⟩⟩⟩

/-- Item 7 of the corresponding evaluated list. -/
def groupsLitG7 : TriGroup :=
  ⟨[⟨⟨0,0,-5,1,5⟩,⟨0,0,0,0,1⟩,⟨0,0,5,1,10⟩⟩,
    ⟨⟨0,0,5,-3,10⟩,⟨-1,0,0,0,1⟩,⟨0,0,5,1,10⟩⟩,
    ⟨⟨0,0,0,1,5⟩,⟨1,-1,0,0,2⟩,⟨0,0,5,1,10⟩⟩,
    ⟨⟨0,0,-5,1,5⟩,⟨0,0,0,0,1⟩,⟨0,0,5,1,10⟩⟩,
    ⟨⟨0,0,0,1,5⟩,⟨1,-1,0,0,2⟩,⟨0,0,5,1,10⟩⟩,
    ⟨⟨0,0,0,1,5⟩,⟨-1,1,0,0,2⟩,⟨0,0,5,1,10⟩⟩,
    ⟨⟨0,0,-5,1,5⟩,⟨0,0,0,0,1⟩,⟨0,0,5,1,10⟩⟩,
    ⟨⟨0,0,0,1,5⟩,⟨-1,1,0,0,2⟩,⟨0,0,5,1,10⟩⟩,
    ⟨⟨0,0,5,-3,10⟩,⟨1,0,0,0,1⟩,⟨0,0,5,1,10⟩⟩],
   ⟨⟨0,0,0,0,1⟩,⟨0,0,0,0,1⟩,⟨1,0,0,0,1⟩⟩⟩

/-- Item 8 of the corresponding evaluated list. -/
def groupsLitG8 : TriGroup :=
  ⟨[⟨⟨0,0,-5,3,10⟩,⟨-1,0,0,0,1⟩,⟨0,0,-5,-1,10⟩⟩,
    ⟨⟨0,0,5,-1,10⟩,⟨-1,-1,0,0,2⟩,⟨0,0,5,-3,10⟩⟩,
    ⟨⟨0,0,-5,1,10⟩,⟨-1,-1,0,0,2⟩,⟨0,0,-5,3,10⟩⟩,
    ⟨⟨0,0,-5,3,10⟩,⟨-1,0,0,0,1⟩,⟨0,0,-5,-1,10⟩⟩,
    ⟨⟨0,0,-5,1,10⟩,⟨-1,-1,0,0,2⟩,⟨0,0,-5,3,10⟩⟩,
    ⟨⟨0,0,-5,-1,10⟩,⟨-1,0,0,0,1⟩,⟨0,0,5,-3,10⟩⟩,
    ⟨⟨0,0,-5,3,10⟩,⟨-1,0,0,0,1⟩,⟨0,0,-5,-1,10⟩⟩,
    ⟨⟨0,0,-5,-1,10⟩,⟨-1,0,0,0,1⟩,⟨0,0,5,-3,10⟩⟩,
    ⟨⟨0,0,0,-1,5⟩,⟨1,-1,0,0,2⟩,⟨0,0,-5,-1,10⟩⟩],
   ⟨⟨-5,1,0,0,10⟩,⟨0,0,0,-1,5⟩,⟨0,-1,0,0,5⟩⟩⟩

/-- Item 9 of the corresponding evaluated list. -/
def groupsLitG9 : TriGroup :=
  ⟨[⟨⟨0,0,0,1,5⟩,⟨-1,1,0,0,2⟩,⟨0,0,5,1,10⟩⟩,
    ⟨⟨0,0,0,1,5⟩,⟨1,-1,0,0,2⟩,⟨0,0,5,1,10⟩⟩,
    ⟨⟨0,0,5,1,10⟩,⟨-1,0,0,0,1⟩,⟨0,0,-5,3,10⟩⟩,
    ⟨⟨0,0,0,1,5⟩,⟨-1,1,0,0,2⟩,⟨0,0,5,1,10⟩⟩,
    ⟨⟨0,0,5,1,10⟩,⟨-1,0,0,0,1⟩,⟨0,0,-5,3,10⟩⟩,
    ⟨⟨0,0,0,2,5⟩,⟨0,0,0,0,1⟩,⟨0,0,5,-3,10⟩⟩,
    ⟨⟨0,0,0,1,5⟩,⟨-1,1,0,0,2⟩,⟨0,0,5,1,10⟩⟩,
    ⟨⟨0,0,0,2,5⟩,⟨0,0,0,0,1⟩,⟨0,0,5,-3,10⟩⟩,
    ⟨⟨0,0,5,1,10⟩,⟨1,0,0,0,1⟩,⟨0,0,-5,3,10⟩⟩],
   ⟨⟨0,2,0,0,5⟩,⟨0,0,0,0,1⟩,⟨0,1,0,0,5⟩⟩⟩

/-- Item 10 of the corresponding evaluated list. -/
def groupsLitG10 : TriGroup :=
  ⟨[⟨⟨0,0,0,2,5⟩,⟨0,0,0,0,1⟩,⟨0,0,5,-3,10⟩⟩,
    ⟨⟨0,0,5,1,10⟩,⟨-1,0,0,0,1⟩,⟨0,0,-5,3,10⟩⟩,
    ⟨⟨0,0,5,-1,10⟩,⟨-1,-1,0,0,2⟩,⟨0,0,5,-3,10⟩⟩,
    ⟨⟨0,0,0,2,5⟩,⟨0,0,0,0,1⟩,⟨0,0,5,-3,10⟩⟩,
    ⟨⟨0,0,5,-1,10⟩,⟨-1,-1,0,0,2⟩,⟨0,0,5,-3,10⟩⟩,
    ⟨⟨0,0,-5,3,10⟩,⟨-1,0,0,0,1⟩,⟨0,0,-5,-1,10⟩⟩,
    ⟨⟨0,0,0,2,5⟩,⟨0,0,0,0,1⟩,⟨0,0,5,-3,10⟩⟩,
    ⟨⟨0,0,-5,3,10⟩,⟨-1,0,0,0,1⟩,⟨0,0,-5,-1,10⟩⟩,
    ⟨⟨0,0,5,-1,5⟩,⟨0,0,0,0,1⟩,⟨0,0,-5,-1,10⟩⟩],
   ⟨⟨5,1,0,0,10⟩,⟨0,0,-5,1,10⟩,⟨0,-1,0,0,5⟩⟩⟩

/-- Item 11 of the corresponding evaluated list. -/
def groupsLitG11 : TriGroup :=
  ⟨[⟨⟨0,0,5,-3,10⟩,⟨-1,0,0,0,1⟩,⟨0,0,5,1,10⟩⟩,
    ⟨⟨0,0,-5,1,10⟩,⟨-1,-1,0,0,2⟩,⟨0,0,-5,3,10⟩⟩,
    ⟨⟨0,0,5,-1,10⟩,⟨-1,-1,0,0,2⟩,⟨0,0,5,-3,10⟩⟩,
    ⟨⟨0,0,5,-3,10⟩,⟨-1,0,0,0,1⟩,⟨0,0,5,1,10⟩⟩,
    ⟨⟨0,0,5,-1,10⟩,⟨-1,-1,0,0,2⟩,⟨0,0,5,-3,10⟩⟩,
    ⟨⟨0,0,5,1,10⟩,⟨-1,0,0,0,1⟩,⟨0,0,-5,3,10⟩⟩,
    ⟨⟨0,0,5,-3,10⟩,⟨-1,0,0,0,1⟩,⟨0,0,5,1,10⟩⟩,
    ⟨⟨0,0,5,1,10⟩,⟨-1,0,0,0,1⟩,⟨0,0,-5,3,10⟩⟩,
    ⟨⟨0,0,0,1,5⟩,⟨1,-1,0,0,2⟩,⟨0,0,5,1,10⟩⟩],
   ⟨⟨5,-1,0,0,10⟩,⟨0,0,0,-1,5⟩,⟨0,1,0,0,5⟩⟩⟩

/-- The triangle groups of the aligned geometry, as evaluated data (see `faceGroupsEval`). -/
def groupsLit : List TriGroup := [groupsLitG0, groupsLitG1, groupsLitG2, groupsLitG3, groupsLitG4, groupsLitG5, groupsLitG6, groupsLitG7, groupsLitG8, groupsLitG9, groupsLitG10, groupsLitG11]

/-- Item 0 of the corresponding evaluated list. -/
def facesLitF0 : ComputedFace :=
  ⟨⟨⟨0,0,1,0,5⟩,⟨5,3,0,0,10⟩,⟨0,0,1,1,10⟩⟩,
   ⟨⟨0,0,1,0,2⟩,⟨1,-1,0,0,4⟩,⟨0,0,0,0,1⟩⟩,
   ⟨⟨5,-1,0,0,20⟩,⟨0,0,0,1,10⟩,⟨0,-2,0,0,5⟩⟩,
   ⟨⟨5,-1,0,0,10⟩,⟨0,0,0,1,5⟩,⟨0,1,0,0,5⟩⟩,
   ⟨⟨5,-1,0,0,10⟩,⟨0,0,0,1,5⟩,⟨0,1,0,0,5⟩⟩,
   [⟨⟨0,0,5,-3,10⟩,⟨1,0,0,0,1⟩,⟨0,0,5,1,10⟩⟩,
    ⟨⟨0,0,0,1,5⟩,⟨-1,1,0,0,2⟩,⟨0,0,5,1,10⟩⟩,
    ⟨⟨0,0,5,1,10⟩,⟨1,0,0,0,1⟩,⟨0,0,-5,3,10⟩⟩,
    ⟨⟨0,0,5,-1,10⟩,⟨1,1,0,0,2⟩,⟨0,0,5,-3,10⟩⟩,
    ⟨⟨0,0,-5,1,10⟩,⟨1,1,0,0,2⟩,⟨0,0,-5,3,10⟩⟩],
   ⟨⟨0,0,5,-1,10⟩,⟨1,1,0,0,2⟩,⟨0,0,5,-3,10⟩⟩, 0⟩

/-- Item 1 of the corresponding evaluated list. -/
def facesLitF1 : ComputedFace :=
  ⟨⟨⟨0,0,3,1,10⟩,⟨5,1,0,0,10⟩,⟨0,0,-1,-1,10⟩⟩,
   ⟨⟨0,0,-5,1,10⟩,⟨0,0,0,0,1⟩,⟨0,0,0,-1,5⟩⟩,
   ⟨⟨0,-1,0,0,5⟩,⟨0,0,0,1,5⟩,⟨5,-1,0,0,10⟩⟩,
   ⟨⟨5,1,0,0,10⟩,⟨0,0,5,-1,10⟩,⟨0,-1,0,0,5⟩⟩,
   ⟨⟨5,1,0,0,10⟩,⟨0,0,5,-1,10⟩,⟨0,-1,0,0,5⟩⟩,
   [⟨⟨0,0,5,1,10⟩,⟨1,0,0,0,1⟩,⟨0,0,-5,3,10⟩⟩,
    ⟨⟨0,0,0,2,5⟩,⟨0,0,0,0,1⟩,⟨0,0,5,-3,10⟩⟩,
    ⟨⟨0,0,5,-1,5⟩,⟨0,0,0,0,1⟩,⟨0,0,-5,-1,10⟩⟩,
    ⟨⟨0,0,-5,3,10⟩,⟨1,0,0,0,1⟩,⟨0,0,-5,-1,10⟩⟩,
    ⟨⟨0,0,5,-1,10⟩,⟨1,1,0,0,2⟩,⟨0,0,5,-3,10⟩⟩],
   ⟨⟨0,0,5,-1,10⟩,⟨1,1,0,0,2⟩,⟨0,0,5,-3,10⟩⟩, 4⟩

/-- Item 2 of the corresponding evaluated list. -/
def facesLitF2 : ComputedFace :=
  ⟨⟨⟨0,0,0,0,1⟩,⟨0,0,0,0,1⟩,⟨0,0,-5,-1,10⟩⟩,
   ⟨⟨0,0,-1,0,2⟩,⟨-1,1,0,0,4⟩,⟨0,0,0,0,1⟩⟩,
   ⟨⟨-1,1,0,0,4⟩,⟨0,0,1,0,2⟩,⟨0,0,0,0,1⟩⟩,
   ⟨⟨0,0,0,0,1⟩,⟨0,0,0,0,1⟩,⟨-1,0,0,0,1⟩⟩,
   ⟨⟨0,0,0,0,1⟩,⟨0,0,0,0,1⟩,⟨-1,0,0,0,1⟩⟩,
   [⟨⟨0,0,5,-1,5⟩,⟨0,0,0,0,1⟩,⟨0,0,-5,-1,10⟩⟩,
    ⟨⟨0,0,-5,3,10⟩,⟨-1,0,0,0,1⟩,⟨0,0,-5,-1,10⟩⟩,
    ⟨⟨0,0,0,-1,5⟩,⟨1,-1,0,0,2⟩,⟨0,0,-5,-1,10⟩⟩,
    ⟨⟨0,0,0,-1,5⟩,⟨-1,1,0,0,2⟩,⟨0,0,-5,-1,10⟩⟩,
    ⟨⟨0,0,-5,3,10⟩,⟨1,0,0,0,1⟩,⟨0,0,-5,-1,10⟩⟩],
   ⟨⟨0,0,-5,3,10⟩,⟨1,0,0,0,1⟩,⟨0,0,-5,-1,10⟩⟩, 10⟩

/-- Item 3 of the corresponding evaluated list. -/
def facesLitF3 : ComputedFace :=
  ⟨⟨⟨0,0,-1,-1,5⟩,⟨0,0,0,0,1⟩,⟨0,0,-1,-1,10⟩⟩,
   ⟨⟨0,0,0,-1,10⟩,⟨1,-1,0,0,4⟩,⟨0,0,0,1,5⟩⟩,
   ⟨⟨-5,1,0,0,20⟩,⟨0,0,1,0,2⟩,⟨5,-1,0,0,10⟩⟩,
   ⟨⟨0,-2,0,0,5⟩,⟨0,0,0,0,1⟩,⟨0,-1,0,0,5⟩⟩,
   ⟨⟨0,-2,0,0,5⟩,⟨0,0,0,0,1⟩,⟨0,-1,0,0,5⟩⟩,
   [⟨⟨0,0,0,-1,5⟩,⟨1,-1,0,0,2⟩,⟨0,0,-5,-1,10⟩⟩,
    ⟨⟨0,0,-5,-1,10⟩,⟨-1,0,0,0,1⟩,⟨0,0,5,-3,10⟩⟩,
    ⟨⟨0,0,0,-2,5⟩,⟨0,0,0,0,1⟩,⟨0,0,-5,3,10⟩⟩,
    ⟨⟨0,0,-5,-1,10⟩,⟨1,0,0,0,1⟩,⟨0,0,5,-3,10⟩⟩,
    ⟨⟨0,0,0,-1,5⟩,⟨-1,1,0,0,2⟩,⟨0,0,-5,-1,10⟩⟩],
   ⟨⟨0,0,-5,-1,10⟩,⟨1,0,0,0,1⟩,⟨0,0,5,-3,10⟩⟩, 11⟩

/-- Item 4 of the corresponding evaluated list. -/
def facesLitF4 : ComputedFace :=
  ⟨⟨⟨0,0,-3,-1,10⟩,⟨-5,-1,0,0,10⟩,⟨0,0,1,1,10⟩⟩,
   ⟨⟨0,0,5,1,20⟩,⟨-1,0,0,0,2⟩,⟨0,0,5,-1,10⟩⟩,
   ⟨⟨-5,2,0,0,10⟩,⟨0,0,5,1,20⟩,⟨5,1,0,0,10⟩⟩,
   ⟨⟨-5,-1,0,0,10⟩,⟨0,0,-5,1,10⟩,⟨0,1,0,0,5⟩⟩,
   ⟨⟨-5,-1,0,0,10⟩,⟨0,0,-5,1,10⟩,⟨0,1,0,0,5⟩⟩,
   [⟨⟨0,0,-5,-1,10⟩,⟨-1,0,0,0,1⟩,⟨0,0,5,-3,10⟩⟩,
    ⟨⟨0,0,-5,1,10⟩,⟨-1,-1,0,0,2⟩,⟨0,0,-5,3,10⟩⟩,
    ⟨⟨0,0,5,-3,10⟩,⟨-1,0,0,0,1⟩,⟨0,0,5,1,10⟩⟩,
    ⟨⟨0,0,-5,1,5⟩,⟨0,0,0,0,1⟩,⟨0,0,5,1,10⟩⟩,
    ⟨⟨0,0,0,-2,5⟩,⟨0,0,0,0,1⟩,⟨0,0,-5,3,10⟩⟩],
   ⟨⟨0,0,-5,1,5⟩,⟨0,0,0,0,1⟩,⟨0,0,5,1,10⟩⟩, 7⟩

/-- Item 5 of the corresponding evaluated list. -/
def facesLitF5 : ComputedFace :=
  ⟨⟨⟨0,0,-1,0,5⟩,⟨5,3,0,0,10⟩,⟨0,0,-1,-1,10⟩⟩,
   ⟨⟨0,0,-1,0,2⟩,⟨1,-1,0,0,4⟩,⟨0,0,0,0,1⟩⟩,
   ⟨⟨-5,1,0,0,20⟩,⟨0,0,0,1,10⟩,⟨0,2,0,0,5⟩⟩,
   ⟨⟨-5,1,0,0,10⟩,⟨0,0,0,1,5⟩,⟨0,-1,0,0,5⟩⟩,
   ⟨⟨-5,1,0,0,10⟩,⟨0,0,0,1,5⟩,⟨0,-1,0,0,5⟩⟩,
   [⟨⟨0,0,-5,3,10⟩,⟨1,0,0,0,1⟩,⟨0,0,-5,-1,10⟩⟩,
    ⟨⟨0,0,0,-1,5⟩,⟨-1,1,0,0,2⟩,⟨0,0,-5,-1,10⟩⟩,
    ⟨⟨0,0,-5,-1,10⟩,⟨1,0,0,0,1⟩,⟨0,0,5,-3,10⟩⟩,
    ⟨⟨0,0,-5,1,10⟩,⟨1,1,0,0,2⟩,⟨0,0,-5,3,10⟩⟩,
    ⟨⟨0,0,5,-1,10⟩,⟨1,1,0,0,2⟩,⟨0,0,5,-3,10⟩⟩],
   ⟨⟨0,0,-5,1,10⟩,⟨1,1,0,0,2⟩,⟨0,0,-5,3,10⟩⟩, 2⟩

/-- Item 6 of the corresponding evaluated list. -/
def facesLitF6 : ComputedFace :=
  ⟨⟨⟨0,0,-3,-1,10⟩,⟨5,1,0,0,10⟩,⟨0,0,1,1,10⟩⟩,
   ⟨⟨0,0,5,-1,10⟩,⟨0,0,0,0,1⟩,⟨0,0,0,1,5⟩⟩,
   ⟨⟨0,1,0,0,5⟩,⟨0,0,0,1,5⟩,⟨-5,1,0,0,10⟩⟩,
   ⟨⟨-5,-1,0,0,10⟩,⟨0,0,5,-1,10⟩,⟨0,1,0,0,5⟩⟩,
   ⟨⟨-5,-1,0,0,10⟩,⟨0,0,5,-1,10⟩,⟨0,1,0,0,5⟩⟩,
   [⟨⟨0,0,-5,-1,10⟩,⟨1,0,0,0,1⟩,⟨0,0,5,-3,10⟩⟩,
    ⟨⟨0,0,0,-2,5⟩,⟨0,0,0,0,1⟩,⟨0,0,-5,3,10⟩⟩,
    ⟨⟨0,0,-5,1,5⟩,⟨0,0,0,0,1⟩,⟨0,0,5,1,10⟩⟩,
    ⟨⟨0,0,5,-3,10⟩,⟨1,0,0,0,1⟩,⟨0,0,5,1,10⟩⟩,
    ⟨⟨0,0,-5,1,10⟩,⟨1,1,0,0,2⟩,⟨0,0,-5,3,10⟩⟩],
   ⟨⟨0,0,-5,1,10⟩,⟨1,1,0,0,2⟩,⟨0,0,-5,3,10⟩⟩, 5⟩

/-- Item 7 of the corresponding evaluated list. -/
def facesLitF7 : ComputedFace :=
  ⟨⟨⟨0,0,0,0,1⟩,⟨0,0,0,0,1⟩,⟨0,0,5,1,10⟩⟩,
   ⟨⟨0,0,1,0,2⟩,⟨-1,1,0,0,4⟩,⟨0,0,0,0,1⟩⟩,
   ⟨⟨1,-1,0,0,4⟩,⟨0,0,1,0,2⟩,⟨0,0,0,0,1⟩⟩,
   ⟨⟨0,0,0,0,1⟩,⟨0,0,0,0,1⟩,⟨1,0,0,0,1⟩⟩,
   ⟨⟨0,0,0,0,1⟩,⟨0,0,0,0,1⟩,⟨1,0,0,0,1⟩⟩,
   [⟨⟨0,0,-5,1,5⟩,⟨0,0,0,0,1⟩,⟨0,0,5,1,10⟩⟩,
    ⟨⟨0,0,5,-3,10⟩,⟨-1,0,0,0,1⟩,⟨0,0,5,1,10⟩⟩,
    ⟨⟨0,0,0,1,5⟩,⟨1,-1,0,0,2⟩,⟨0,0,5,1,10⟩⟩,
    ⟨⟨0,0,0,1,5⟩,⟨-1,1,0,0,2⟩,⟨0,0,5,1,10⟩⟩,
    ⟨⟨0,0,5,-3,10⟩,⟨1,0,0,0,1⟩,⟨0,0,5,1,10⟩⟩],
   ⟨⟨0,0,5,-3,10⟩,⟨1,0,0,0,1⟩,⟨0,0,5,1,10⟩⟩, 9⟩

/-- Item 8 of the corresponding evaluated list. -/
def facesLitF8 : ComputedFace :=
  ⟨⟨⟨0,0,-1,0,5⟩,⟨-5,-3,0,0,10⟩,⟨0,0,-1,-1,10⟩⟩,
   ⟨⟨0,0,0,-1,5⟩,⟨0,0,0,0,1⟩,⟨0,0,5,-1,10⟩⟩,
   ⟨⟨0,-1,0,0,5⟩,⟨0,0,5,-1,10⟩,⟨-5,-1,0,0,10⟩⟩,
   ⟨⟨-5,1,0,0,10⟩,⟨0,0,0,-1,5⟩,⟨0,-1,0,0,5⟩⟩,
   ⟨⟨-5,1,0,0,10⟩,⟨0,0,0,-1,5⟩,⟨0,-1,0,0,5⟩⟩,
   [⟨⟨0,0,-5,3,10⟩,⟨-1,0,0,0,1⟩,⟨0,0,-5,-1,10⟩⟩,
    ⟨⟨0,0,5,-1,10⟩,⟨-1,-1,0,0,2⟩,⟨0,0,5,-3,10⟩⟩,
    ⟨⟨0,0,-5,1,10⟩,⟨-1,-1,0,0,2⟩,⟨0,0,-5,3,10⟩⟩,
    ⟨⟨0,0,-5,-1,10⟩,⟨-1,0,0,0,1⟩,⟨0,0,5,-3,10⟩⟩,
    ⟨⟨0,0,0,-1,5⟩,⟨1,-1,0,0,2⟩,⟨0,0,-5,-1,10⟩⟩],
   ⟨⟨0,0,0,-1,5⟩,⟨1,-1,0,0,2⟩,⟨0,0,-5,-1,10⟩⟩, 1⟩

/-- Item 9 of the corresponding evaluated list. -/
def facesLitF9 : ComputedFace :=
  ⟨⟨⟨0,0,1,1,5⟩,⟨0,0,0,0,1⟩,⟨0,0,1,1,10⟩⟩,
   ⟨⟨0,0,0,1,10⟩,⟨1,-1,0,0,4⟩,⟨0,0,0,-1,5⟩⟩,
   ⟨⟨5,-1,0,0,20⟩,⟨0,0,1,0,2⟩,⟨-5,1,0,0,10⟩⟩,
   ⟨⟨0,2,0,0,5⟩,⟨0,0,0,0,1⟩,⟨0,1,0,0,5⟩⟩,
   ⟨⟨0,2,0,0,5⟩,⟨0,0,0,0,1⟩,⟨0,1,0,0,5⟩⟩,
   [⟨⟨0,0,0,1,5⟩,⟨-1,1,0,0,2⟩,⟨0,0,5,1,10⟩⟩,
    ⟨⟨0,0,0,1,5⟩,⟨1,-1,0,0,2⟩,⟨0,0,5,1,10⟩⟩,
    ⟨⟨0,0,5,1,10⟩,⟨-1,0,0,0,1⟩,⟨0,0,-5,3,10⟩⟩,
    ⟨⟨0,0,0,2,5⟩,⟨0,0,0,0,1⟩,⟨0,0,5,-3,10⟩⟩,
    ⟨⟨0,0,5,1,10⟩,⟨1,0,0,0,1⟩,⟨0,0,-5,3,10⟩⟩],
   ⟨⟨0,0,5,1,10⟩,⟨1,0,0,0,1⟩,⟨0,0,-5,3,10⟩⟩, 8⟩

/-- Item 10 of the corresponding evaluated list. -/
def facesLitF10 : ComputedFace :=
  ⟨⟨⟨0,0,3,1,10⟩,⟨-5,-1,0,0,10⟩,⟨0,0,-1,-1,10⟩⟩,
   ⟨⟨0,0,5,-3,20⟩,⟨1,0,0,0,2⟩,⟨0,0,0,-1,5⟩⟩,
   ⟨⟨0,3,0,0,10⟩,⟨0,0,5,1,20⟩,⟨5,-1,0,0,10⟩⟩,
   ⟨⟨5,1,0,0,10⟩,⟨0,0,-5,1,10⟩,⟨0,-1,0,0,5⟩⟩,
   ⟨⟨5,1,0,0,10⟩,⟨0,0,-5,1,10⟩,⟨0,-1,0,0,5⟩⟩,
   [⟨⟨0,0,0,2,5⟩,⟨0,0,0,0,1⟩,⟨0,0,5,-3,10⟩⟩,
    ⟨⟨0,0,5,1,10⟩,⟨-1,0,0,0,1⟩,⟨0,0,-5,3,10⟩⟩,
    ⟨⟨0,0,5,-1,10⟩,⟨-1,-1,0,0,2⟩,⟨0,0,5,-3,10⟩⟩,
    ⟨⟨0,0,-5,3,10⟩,⟨-1,0,0,0,1⟩,⟨0,0,-5,-1,10⟩⟩,
    ⟨⟨0,0,5,-1,5⟩,⟨0,0,0,0,1⟩,⟨0,0,-5,-1,10⟩⟩],
   ⟨⟨0,0,0,2,5⟩,⟨0,0,0,0,1⟩,⟨0,0,5,-3,10⟩⟩, 6⟩

/-- Item 11 of the corresponding evaluated list. -/
def facesLitF11 : ComputedFace :=
  ⟨⟨⟨0,0,1,0,5⟩,⟨-5,-3,0,0,10⟩,⟨0,0,1,1,10⟩⟩,
   ⟨⟨0,0,0,1,5⟩,⟨0,0,0,0,1⟩,⟨0,0,-5,1,10⟩⟩,
   ⟨⟨0,1,0,0,5⟩,⟨0,0,5,-1,10⟩,⟨5,1,0,0,10⟩⟩,
   ⟨⟨5,-1,0,0,10⟩,⟨0,0,0,-1,5⟩,⟨0,1,0,0,5⟩⟩,
   ⟨⟨5,-1,0,0,10⟩,⟨0,0,0,-1,5⟩,⟨0,1,0,0,5⟩⟩,
   [⟨⟨0,0,5,-3,10⟩,⟨-1,0,0,0,1⟩,⟨0,0,5,1,10⟩⟩,
    ⟨⟨0,0,-5,1,10⟩,⟨-1,-1,0,0,2⟩,⟨0,0,-5,3,10⟩⟩,
    ⟨⟨0,0,5,-1,10⟩,⟨-1,-1,0,0,2⟩,⟨0,0,5,-3,10⟩⟩,
    ⟨⟨0,0,5,1,10⟩,⟨-1,0,0,0,1⟩,⟨0,0,-5,3,10⟩⟩,
    ⟨⟨0,0,0,1,5⟩,⟨1,-1,0,0,2⟩,⟨0,0,5,1,10⟩⟩],
   ⟨⟨0,0,0,1,5⟩,⟨1,-1,0,0,2⟩,⟨0,0,5,1,10⟩⟩, 3⟩

/-- The computed face list, as evaluated data (see `facesLitEval`). -/
def facesLit : List ComputedFace := [facesLitF0, facesLitF1, facesLitF2, facesLitF3, facesLitF4, facesLitF5, facesLitF6, facesLitF7, facesLitF8, facesLitF9, facesLitF10, facesLitF11]

/-! ## Theorems

Helper lemmas first (shared evaluation of the geometry pipeline and small
structural lemmas), then one theorem per specification claim. -/

set_option maxRecDepth 1000000
set_option maxHeartbeats 400000000
set_option linter.unusedTactic false

/-- The aligned-geometry construction evaluates to the recorded literals
(one kernel evaluation of `createAlignedDodecGeo`). -/
theorem alignedGeoEval :
    createAlignedDodecGeo = ⟨alignedLit, alignKLit, alignWLit, bottomCenterLit⟩ := rfl

/-- The edge extraction on the aligned literal positions evaluates to
`edgesLit`. -/
theorem edgesLitEval : extractSortedEdges alignedLit = edgesLit := rfl

/-- The triangle grouping on the aligned literal positions evaluates to
`groupsLit`. -/
theorem faceGroupsEval : faceGroups alignedLit = groupsLit := rfl

/-- Face 0 of the aligned geometry evaluates to `facesLitF0`. -/
theorem faceEval0 : computeFaceOfGroup alignKLit alignWLit groupsLitG0 = facesLitF0 := rfl

/-- Face 1 of the aligned geometry evaluates to `facesLitF1`. -/
theorem faceEval1 : computeFaceOfGroup alignKLit alignWLit groupsLitG1 = facesLitF1 := rfl

/-- Face 2 of the aligned geometry evaluates to `facesLitF2`. -/
theorem faceEval2 : computeFaceOfGroup alignKLit alignWLit groupsLitG2 = facesLitF2 := rfl

/-- Face 3 of the aligned geometry evaluates to `facesLitF3`. -/
theorem faceEval3 : computeFaceOfGroup alignKLit alignWLit groupsLitG3 = facesLitF3 := rfl

/-- Face 4 of the aligned geometry evaluates to `facesLitF4`. -/
theorem faceEval4 : computeFaceOfGroup alignKLit alignWLit groupsLitG4 = facesLitF4 := rfl

/-- Face 5 of the aligned geometry evaluates to `facesLitF5`. -/
theorem faceEval5 : computeFaceOfGroup alignKLit alignWLit groupsLitG5 = facesLitF5 := rfl

/-- Face 6 of the aligned geometry evaluates to `facesLitF6`. -/
theorem faceEval6 : computeFaceOfGroup alignKLit alignWLit groupsLitG6 = facesLitF6 := rfl

/-- Face 7 of the aligned geometry evaluates to `facesLitF7`. -/
theorem faceEval7 : computeFaceOfGroup alignKLit alignWLit groupsLitG7 = facesLitF7 := rfl

/-- Face 8 of the aligned geometry evaluates to `facesLitF8`. -/
theorem faceEval8 : computeFaceOfGroup alignKLit alignWLit groupsLitG8 = facesLitF8 := rfl

/-- Face 9 of the aligned geometry evaluates to `facesLitF9`. -/
theorem faceEval9 : computeFaceOfGroup alignKLit alignWLit groupsLitG9 = facesLitF9 := rfl

/-- Face 10 of the aligned geometry evaluates to `facesLitF10`. -/
theorem faceEval10 : computeFaceOfGroup alignKLit alignWLit groupsLitG10 = facesLitF10 := rfl

/-- Face 11 of the aligned geometry evaluates to `facesLitF11`. -/
theorem faceEval11 : computeFaceOfGroup alignKLit alignWLit groupsLitG11 = facesLitF11 := rfl

/-- The face computation on the aligned literal data evaluates to
`facesLit` (assembled from the per-face evaluations, so no single
declaration evaluates all twelve faces at once). -/
theorem facesLitEval : computeFacesOn alignedLit alignKLit alignWLit = facesLit := by
  show (faceGroups alignedLit).map (computeFaceOfGroup alignKLit alignWLit) = facesLit
  rw [faceGroupsEval]
  show List.map (computeFaceOfGroup alignKLit alignWLit)
    [groupsLitG0, groupsLitG1, groupsLitG2, groupsLitG3, groupsLitG4, groupsLitG5,
     groupsLitG6, groupsLitG7, groupsLitG8, groupsLitG9, groupsLitG10, groupsLitG11] = facesLit
  simp only [List.map_cons, List.map_nil]
  rw [faceEval0, faceEval1, faceEval2, faceEval3, faceEval4, faceEval5, faceEval6,
    faceEval7, faceEval8, faceEval9, faceEval10, faceEval11]
  rfl

/-- `sortedEdges` is exactly the recorded edge list. -/
theorem sortedEdgesEval : sortedEdges = edgesLit := by
  show extractSortedEdges createAlignedDodecGeo.positions = edgesLit
  rw [alignedGeoEval]
  exact edgesLitEval

/-- `computeFaces` is exactly the recorded face list. -/
theorem computeFacesEval : computeFaces = facesLit := by
  show computeFacesOn createAlignedDodecGeo.positions createAlignedDodecGeo.alignK
    createAlignedDodecGeo.alignW = facesLit
  rw [alignedGeoEval]
  exact facesLitEval

/-- C1: on the aligned dodecahedron triangle mesh
(`THREE.DodecahedronGeometry(2.5, 0)`), `computeFaces` — which groups
triangles by normal similarity (`dot > 0.99`) — returns exactly 12 face
groups, and each group has exactly 5 unique vertices, all lying in the
face plane (a planar pentagon, per `c1FaceOk`). -/
theorem computeFaces_twelve_pentagons :
    computeFaces.length = 12 ∧ computeFaces.all c1FaceOk = true := by
  rw [computeFacesEval]
  exact ⟨rfl, rfl⟩

/-- C2: `extractSortedEdges` on the aligned geometry returns 30 edges, in
non-decreasing order of the sort key `-max(az, bz)` (`chainSorted`), where
the key equals the lower post-tilt height of the edge's endpoints and each
segment has the solid's edge length (`c2EdgeOk`); no undirected edge
repeats (`noDupEdges`), and every one of the 30 geometric edges of the
solid occurs (`c2Coverage`) — so each geometric edge appears exactly once
and the list is ordered bottom-to-top. -/
theorem sortedEdges_unique_sorted_bottom_to_top :
    sortedEdges.length = 30 ∧
    chainSorted sortedEdges = true ∧
    sortedEdges.all c2EdgeOk = true ∧
    noDupEdges sortedEdges = true ∧
    c2Coverage createAlignedDodecGeo.positions sortedEdges = true := by
  rw [sortedEdgesEval, alignedGeoEval]
  exact ⟨rfl, rfl, rfl, rfl, rfl⟩

/-- C7: every face returned by `computeFaces` has its panel position equal
to the arithmetic mean of the face's unique vertices, a basis
`(xAxis, yAxis, zAxis)` of pairwise orthogonal unit vectors whose z-axis
is the face's unit normal, and a y-axis that is the unit vector from the
centroid toward one of the face's vertices (`c7FaceOk`). -/
theorem computeFaces_centroid_basis :
    computeFaces.length = 12 ∧ computeFaces.all c7FaceOk = true := by
  rw [computeFacesEval]
  exact ⟨rfl, rfl⟩

/-- C9: the matching of faces to `FACE_DEFINITIONS` is a bijection: for
each of the 12 face groups the dot product of the face normal with the
`alignQ`-rotated definition directions attains its maximum at exactly one
definition (`c9FaceOk`, so `defIdx` is the well-defined argmax computed by
`matchDefinition`), and each of the 12 definitions is assigned to exactly
one face (`assignedOnce`). -/
theorem computeFaces_matching_bijection :
    computeFaces.length = 12 ∧
    computeFaces.all
      (c9FaceOk createAlignedDodecGeo.alignK createAlignedDodecGeo.alignW) = true ∧
    (List.range 12).all (assignedOnce computeFaces) = true := by
  rw [computeFacesEval, alignedGeoEval]
  exact ⟨rfl, rfl, rfl⟩

/-- C3: the number of revealed edge cylinders is zero before the
edge-construct phase (`t < TILT_END`), equals
`Math.ceil(ease * total)` with `ease = 1 - (1-p)²` during it, equals the
total edge count from `EDGE_DRAW_END` on, and is monotone (non-decreasing)
in elapsed time. -/
theorem edgeRevealCount_monotone (total : ℕ) (t1 t2 : ℚ) (h : t1 ≤ t2) :
    (t1 < TILT_END → edgeRevealCount t1 total = 0) ∧
    (TILT_END ≤ t1 → t1 < EDGE_DRAW_END →
      edgeRevealCount t1 total =
        ⌈(1 - (1 - (t1 - TILT_END) / (EDGE_DRAW_END - TILT_END)) ^ 2) * total⌉) ∧
    (EDGE_DRAW_END ≤ t1 → edgeRevealCount t1 total = (total : ℤ)) ∧
    edgeRevealCount t1 total ≤ edgeRevealCount t2 total := by
  have htot : (0:ℚ) ≤ (total : ℚ) := Nat.cast_nonneg total
  refine ⟨?_, ?_, ?_, ?_⟩
  · intro ht; simp [edgeRevealCount, ht]
  · intro h1 h2
    rw [edgeRevealCount, if_neg (not_lt.mpr h1), if_pos h2]
  · intro h1
    have h2 : ¬ t1 < TILT_END := by unfold TILT_END EDGE_DRAW_END at *; intro hc; linarith
    have h3 : ¬ t1 < EDGE_DRAW_END := not_lt.mpr h1
    rw [edgeRevealCount, if_neg h2, if_neg h3]
  · unfold edgeRevealCount TILT_END EDGE_DRAW_END
    split_ifs with a1 a2 b1 b2 b3 b4 b5
    · exact le_refl 0
    · have he : (0:ℚ) ≤ (1 - (1 - (t2 - 4) / (7 - 4)) ^ 2) * total := by
        apply mul_nonneg _ htot
        nlinarith [sq_nonneg (1 - (t2 - 4) / 3)]
      calc (0:ℤ) = ⌈(0:ℚ)⌉ := by simp
        _ ≤ _ := Int.ceil_le_ceil he
    · exact Int.ofNat_nonneg total
    · linarith
    · apply Int.ceil_le_ceil
      apply mul_le_mul_of_nonneg_right _ htot
      nlinarith [sq_nonneg ((t2 - t1) / 3)]
    · have he : (1 - (1 - (t1 - 4) / (7 - 4)) ^ 2) * total ≤ (total : ℚ) := by
        nlinarith [sq_nonneg (1 - (t1 - 4) / 3), htot,
          mul_nonneg (sq_nonneg (1 - (t1 - 4) / 3)) htot]
      calc ⌈(1 - (1 - (t1 - 4) / (7 - 4)) ^ 2) * (total:ℚ)⌉ ≤ ⌈(total:ℚ)⌉ :=
            Int.ceil_le_ceil he
        _ = total := Int.ceil_natCast total
    · linarith
    · linarith
    · exact le_refl _

/-- Witness for C3 at `total = 30`, `t1 = 1`, `t2 = 5`. -/
theorem edgeRevealCount_monotone_witness :
    ((1:ℚ) < TILT_END → edgeRevealCount 1 30 = 0) ∧
    (TILT_END ≤ (1:ℚ) → (1:ℚ) < EDGE_DRAW_END →
      edgeRevealCount 1 30 =
        ⌈(1 - (1 - ((1:ℚ) - TILT_END) / (EDGE_DRAW_END - TILT_END)) ^ 2) * (30:ℕ)⌉) ∧
    (EDGE_DRAW_END ≤ (1:ℚ) → edgeRevealCount 1 30 = (30 : ℤ)) ∧
    edgeRevealCount 1 30 ≤ edgeRevealCount 5 30 :=
  edgeRevealCount_monotone 30 1 5 (by norm_num)

/-- C4: every frame's elapsed time selects exactly one of the four phases —
spin for `t < SPIN_PHASE`, tilt for `SPIN_PHASE ≤ t < TILT_END`, edge
construction for `TILT_END ≤ t < EDGE_DRAW_END`, tumble for
`EDGE_DRAW_END ≤ t` — and the phase index is monotone in elapsed time, so
the phases occur in the order spin, tilt, construct, tumble and the tumble
branch never runs before the construction phase completes. -/
theorem phaseAt_partition_and_mono (t t1 t2 : ℚ) (h : t1 ≤ t2) :
    ((phaseAt t = .spin) ↔ t < SPIN_PHASE) ∧
    ((phaseAt t = .tilt) ↔ SPIN_PHASE ≤ t ∧ t < TILT_END) ∧
    ((phaseAt t = .construct) ↔ TILT_END ≤ t ∧ t < EDGE_DRAW_END) ∧
    ((phaseAt t = .tumble) ↔ EDGE_DRAW_END ≤ t) ∧
    phaseIdx (phaseAt t1) ≤ phaseIdx (phaseAt t2) := by
  unfold phaseAt SPIN_PHASE TILT_END EDGE_DRAW_END
  refine ⟨?_, ?_, ?_, ?_, ?_⟩ <;> split_ifs <;> simp [phaseIdx] <;>
    first
      | linarith
      | (intros; linarith)
      | (constructor <;> intros <;> linarith)

/-- Witness for C4 at `t = 1`, `t1 = 3`, `t2 = 10`. -/
theorem phaseAt_partition_and_mono_witness :
    ((phaseAt 1 = .spin) ↔ (1:ℚ) < SPIN_PHASE) ∧
    ((phaseAt 1 = .tilt) ↔ SPIN_PHASE ≤ (1:ℚ) ∧ (1:ℚ) < TILT_END) ∧
    ((phaseAt 1 = .construct) ↔ TILT_END ≤ (1:ℚ) ∧ (1:ℚ) < EDGE_DRAW_END) ∧
    ((phaseAt 1 = .tumble) ↔ EDGE_DRAW_END ≤ (1:ℚ)) ∧
    phaseIdx (phaseAt 3) ≤ phaseIdx (phaseAt 10) :=
  phaseAt_partition_and_mono 1 3 10 (by norm_num)

/-- C5: a frame of `FacePanel` sets the stored facing flag, the overlay
visibility and the pointer-events flag to exactly the condition
`worldNormal · cameraDir > -0.05` of that frame (given the invariant that
the DOM state agrees with the stored flag, which holds initially), and
calls `onHoverFace(null)` exactly when the condition transitions from
facing to not facing. -/
theorem facePanel_frame_spec (st : PanelState) (dv : ℚ)
    (hinv : st.visible = st.isFacingFront ∧ st.pointer = st.isFacingFront) :
    (panelInit.visible = panelInit.isFacingFront ∧
     panelInit.pointer = panelInit.isFacingFront) ∧
    (panelFrame st dv).1.isFacingFront = decide (dv > -(1/20)) ∧
    (panelFrame st dv).1.visible = decide (dv > -(1/20)) ∧
    (panelFrame st dv).1.pointer = decide (dv > -(1/20)) ∧
    (panelFrame st dv).2 = (st.isFacingFront && !(decide (dv > -(1/20)))) := by
  rcases st with ⟨f, v, pe⟩
  rcases hinv with ⟨h1, h2⟩
  simp only at h1 h2
  cases f <;> cases hd : decide (dv > -(1/20)) <;>
    simp_all [panelFrame, panelInit]

/-- Witness for C5 at the initial state and `dv = -1`. -/
theorem facePanel_frame_spec_witness :
    (panelInit.visible = panelInit.isFacingFront ∧
     panelInit.pointer = panelInit.isFacingFront) ∧
    (panelFrame panelInit (-1)).1.isFacingFront = decide ((-1:ℚ) > -(1/20)) ∧
    (panelFrame panelInit (-1)).1.visible = decide ((-1:ℚ) > -(1/20)) ∧
    (panelFrame panelInit (-1)).1.pointer = decide ((-1:ℚ) > -(1/20)) ∧
    (panelFrame panelInit (-1)).2 =
      (panelInit.isFacingFront && !(decide ((-1:ℚ) > -(1/20)))) :=
  facePanel_frame_spec panelInit (-1) ⟨rfl, rfl⟩

/-- C6: in the tumble phase the speed target is `0.15 · ROTATE_SPEED` when
a face is hovered and `ROTATE_SPEED` otherwise, each frame the speed is
updated by `lerp(speed, target, 5 · delta)`, and consequently the distance
to the target shrinks by the factor `1 − 5·delta` every frame — hovering
slows the tumble toward 15% of its rate and releasing restores it
(stated relative to an arbitrary rotate speed `R`, with
`ROTATE_SPEED = 2π/30` transcendental). -/
theorem tumble_speed_lerp (R s dt : ℚ) (hov : Bool) (hdt : 5 * dt ≤ 1) :
    targetSpeed R true = R * (15/100) ∧
    targetSpeed R false = R ∧
    tumbleSpeedStep R hov s dt = lerp s (targetSpeed R hov) (5 * dt) ∧
    |tumbleSpeedStep R hov s dt - targetSpeed R hov| =
      (1 - 5 * dt) * |s - targetSpeed R hov| := by
  refine ⟨rfl, rfl, rfl, ?_⟩
  have he : tumbleSpeedStep R hov s dt - targetSpeed R hov =
      (1 - 5 * dt) * (s - targetSpeed R hov) := by
    unfold tumbleSpeedStep lerp; ring
  rw [he, abs_mul, abs_of_nonneg (by linarith)]

/-- Witness for C6 at `R = 1`, `s = 1`, `dt = 1/10`, hovered. -/
theorem tumble_speed_lerp_witness :
    targetSpeed 1 true = 1 * (15/100) ∧
    targetSpeed 1 false = 1 ∧
    tumbleSpeedStep 1 true 1 (1/10) = lerp 1 (targetSpeed 1 true) (5 * (1/10)) ∧
    |tumbleSpeedStep 1 true 1 (1/10) - targetSpeed 1 true| =
      (1 - 5 * (1/10)) * |1 - targetSpeed 1 true| :=
  tumble_speed_lerp 1 1 (1/10) true (by norm_num)

/-- Speed-interval invariant of the tumble fold: with every frame's
`5·delta` in `[0, 1]`, a speed in `[0.15·R, R]` stays in that interval. -/
theorem tumbleFold_speed_inv (R : ℚ) (l : List (Bool × ℚ))
    (hf : ∀ f ∈ l, 0 ≤ 5 * f.2 ∧ 5 * f.2 ≤ 1) (st : ℚ × ℚ)
    (hst : R * (15/100) ≤ st.1 ∧ st.1 ≤ R) :
    R * (15/100) ≤ (l.foldl (fun st f => tumbleFrame R f.1 f.2 st) st).1 ∧
    (l.foldl (fun st f => tumbleFrame R f.1 f.2 st) st).1 ≤ R := by
  induction l generalizing st with
  | nil => exact hst
  | cons a rest ih =>
    have ha := hf a (List.mem_cons_self a rest)
    obtain ⟨ha0, ha1⟩ := ha
    refine ih (fun f hfm => hf f (List.mem_cons_of_mem a hfm)) _ ⟨?_, ?_⟩ <;>
      obtain ⟨hs0, hs1⟩ := hst <;>
      simp only [tumbleFrame, tumbleSpeedStep, targetSpeed, lerp] <;>
      cases a.1 <;> simp only [Bool.false_eq_true, if_true, if_false] <;> nlinarith

/-- C10: with every frame's `5·delta` in `[0, 1]` and `R > 0`, the tumble
speed always stays within `[0.15·R, R]` (in particular positive), and the
accumulated tumble angle never decreases from one frame to the next. -/
theorem tumble_invariant (R : ℚ) (hR : 0 < R) (frames : List (Bool × ℚ))
    (hf : ∀ f ∈ frames, 0 ≤ 5 * f.2 ∧ 5 * f.2 ≤ 1)
    (g : Bool × ℚ) (hg : 0 ≤ 5 * g.2 ∧ 5 * g.2 ≤ 1) :
    R * (15/100) ≤ (tumbleRun R frames).1 ∧ (tumbleRun R frames).1 ≤ R ∧
    0 < (tumbleRun R (frames ++ [g])).1 ∧
    (tumbleRun R frames).2 ≤ (tumbleRun R (frames ++ [g])).2 := by
  have hinv := tumbleFold_speed_inv R frames hf (R, 0)
    ⟨by nlinarith, le_refl R⟩
  obtain ⟨h1, h2⟩ := hinv
  have happ : tumbleRun R (frames ++ [g]) =
      tumbleFrame R g.1 g.2 (tumbleRun R frames) := by
    unfold tumbleRun
    rw [List.foldl_append]
    rfl
  have hnext := tumbleFold_speed_inv R [g] (by
      intro f hfm
      rw [List.mem_singleton] at hfm
      subst hfm
      exact hg) (tumbleRun R frames) ⟨h1, h2⟩
  have hnext' : tumbleRun R (frames ++ [g]) =
      ([g].foldl (fun st f => tumbleFrame R f.1 f.2 st) (tumbleRun R frames)) := by
    rw [happ]; rfl
  refine ⟨h1, h2, ?_, ?_⟩
  · rw [hnext']
    have := hnext.1
    nlinarith
  · rw [happ]
    have hs : R * (15/100) ≤
        tumbleSpeedStep R g.1 (tumbleRun R frames).1 g.2 := hnext.1
    have heq : (tumbleFrame R g.1 g.2 (tumbleRun R frames)).2 =
        (tumbleRun R frames).2 +
          tumbleSpeedStep R g.1 (tumbleRun R frames).1 g.2 * g.2 := rfl
    rw [heq]
    have hs0 : 0 ≤ tumbleSpeedStep R g.1 (tumbleRun R frames).1 g.2 := by nlinarith
    have hd0 : 0 ≤ g.2 := by linarith [hg.1]
    have := mul_nonneg hs0 hd0
    linarith

/-- Witness for C10 at `R = 1`, one prior frame, one appended frame. -/
theorem tumble_invariant_witness :
    (1:ℚ) * (15/100) ≤ (tumbleRun 1 [(true, 1/10)]).1 ∧
    (tumbleRun 1 [(true, 1/10)]).1 ≤ 1 ∧
    0 < (tumbleRun 1 ([(true, 1/10)] ++ [(false, 1/10)])).1 ∧
    (tumbleRun 1 [(true, 1/10)]).2 ≤
      (tumbleRun 1 ([(true, 1/10)] ++ [(false, 1/10)])).2 :=
  tumble_invariant 1 (by norm_num) [(true, 1/10)]
    (by
      intro f hfm
      rw [List.mem_singleton] at hfm
      subst hfm
      norm_num)
    (false, 1/10) (by norm_num)

/-- `revealedCount` never exceeds the total character count. -/
theorem revealedAfter_le (n : ℕ) : revealedAfter n ≤ CHAR_MAP.length := by
  induction n with
  | zero => exact Nat.zero_le _
  | succ m ih =>
    unfold revealedAfter revealTick
    split
    · exact ih
    · next h => exact Nat.succ_le_of_lt (Nat.lt_of_not_le (fun hc => h hc))

/-- A char map with non-decreasing adjacent line indices is pairwise
non-decreasing. -/
theorem pairwise_of_chainLineLe (l : List (ℕ × ℕ)) (h : chainLineLe l = true) :
    List.Pairwise (fun a b : ℕ × ℕ => a.1 ≤ b.1) l := by
  induction l with
  | nil => exact List.Pairwise.nil
  | cons a t ih =>
    cases t with
    | nil => exact List.pairwise_singleton _ a
    | cons b t2 =>
      unfold chainLineLe at h
      rw [Bool.and_eq_true] at h
      have hp := ih h.2
      refine List.Pairwise.cons ?_ hp
      intro x hx
      rcases List.mem_cons.mp hx with rfl | hx2
      · exact of_decide_eq_true h.1
      · exact le_trans (of_decide_eq_true h.1) (List.rel_of_pairwise_cons hp hx2)

/-- `CHAR_MAP` lists its lines in non-decreasing order. -/
theorem charMap_chain : chainLineLe CHAR_MAP = true := by decide

/-- Every `CHAR_MAP` entry has a line index below the line count. -/
theorem charMap_lines_lt : ∀ p ∈ CHAR_MAP, p.1 < TERMINAL_LINES.length := by decide

/-- Per-line totals of `CHAR_MAP` match the line lengths. -/
theorem charMap_line_counts :
    ∀ l < TERMINAL_LINES.length,
      ((CHAR_MAP.filter (fun p => p.1 == l)).length =
        (TERMINAL_LINES.getD l []).length) := by
  decide

/-- In a line-sorted char map, once any character of a later line `l2` is
among the first `n` entries, every character of an earlier line `l1` is
too. -/
theorem count_take_full_of_later (m : List (ℕ × ℕ))
    (hp : List.Pairwise (fun a b : ℕ × ℕ => a.1 ≤ b.1) m) (n l1 l2 : ℕ)
    (hl : l1 < l2)
    (hne : 0 < ((m.take n).filter (fun p => p.1 == l2)).length) :
    ((m.take n).filter (fun p => p.1 == l1)).length =
      (m.filter (fun p => p.1 == l1)).length := by
  have hsplit : m.take n ++ m.drop n = m := List.take_append_drop n m
  have hp2 : List.Pairwise (fun a b : ℕ × ℕ => a.1 ≤ b.1) (m.take n ++ m.drop n) := by
    rw [hsplit]; exact hp
  have hcross := (List.pairwise_append.mp hp2).2.2
  have hne' : (m.take n).filter (fun p => p.1 == l2) ≠ [] := by
    intro hc; rw [hc] at hne; simp at hne
  obtain ⟨y, hy⟩ := List.exists_mem_of_ne_nil _ hne'
  rw [List.mem_filter] at hy
  have hdrop : (m.drop n).filter (fun p => p.1 == l1) = [] := by
    rw [List.filter_eq_nil_iff]
    intro a ha hpa
    have hax : y.1 ≤ a.1 := hcross y hy.1 a ha
    have h1 : a.1 = l1 := by simpa using hpa
    have h2 : y.1 = l2 := by simpa using hy.2
    omega
  calc ((m.take n).filter (fun p => p.1 == l1)).length
      = ((m.take n).filter (fun p => p.1 == l1)).length +
          ((m.drop n).filter (fun p => p.1 == l1)).length := by rw [hdrop]; simp
    _ = ((m.take n ++ m.drop n).filter (fun p => p.1 == l1)).length := by
        rw [List.filter_append, List.length_append]
    _ = _ := by rw [hsplit]

/-- C8: the typewriter's revealed character count starts at 0, increases by
exactly one per interval tick (after the `FIRST_LINE_DELAY = 2000` ms delay,
at `CHAR_SPEED_MS = 20` ms per tick) and never exceeds the total character
count; every line's displayed text is always a prefix of that line's full
text; and lines are revealed strictly in order — once any character of a
later line is revealed, every earlier line is fully revealed. -/
theorem terminal_typewriter (n l0 l1 l2 : ℕ) (hl : l1 < l2)
    (hne : 0 < revealedPerLine (revealedAfter n) l2) :
    CHAR_SPEED_MS = 20 ∧ FIRST_LINE_DELAY = 2000 ∧
    revealedAfter 0 = 0 ∧
    (revealedAfter n < CHAR_MAP.length →
      revealedAfter (n + 1) = revealedAfter n + 1) ∧
    revealedAfter n ≤ CHAR_MAP.length ∧
    shownLine (revealedAfter n) l0 <+: TERMINAL_LINES.getD l0 [] ∧
    revealedPerLine (revealedAfter n) l1 = (TERMINAL_LINES.getD l1 []).length := by
  refine ⟨rfl, rfl, rfl, ?_, revealedAfter_le n, ?_, ?_⟩
  · intro hlt
    show revealTick (revealedAfter n) = revealedAfter n + 1
    unfold revealTick
    rw [if_neg (Nat.not_le.mpr hlt)]
  · exact List.take_prefix _ _
  · have hcount := count_take_full_of_later CHAR_MAP
      (pairwise_of_chainLineLe CHAR_MAP charMap_chain) (revealedAfter n) l1 l2 hl hne
    have hl2lt : l2 < TERMINAL_LINES.length := by
      unfold revealedPerLine at hne
      have hne' : (CHAR_MAP.take (revealedAfter n)).filter (fun p => p.1 == l2) ≠ [] := by
        intro hc; rw [hc] at hne; simp at hne
      obtain ⟨y, hy⟩ := List.exists_mem_of_ne_nil _ hne'
      rw [List.mem_filter] at hy
      have hmem : y ∈ CHAR_MAP := List.mem_of_mem_take hy.1
      have := charMap_lines_lt y hmem
      have h2 : y.1 = l2 := by simpa using hy.2
      omega
    have hl1lt : l1 < TERMINAL_LINES.length := lt_trans hl hl2lt
    unfold revealedPerLine
    rw [hcount]
    exact charMap_line_counts l1 hl1lt

/-- Witness for C8 at `n = 20` ticks, `l0 = 3`, `l1 = 0`, `l2 = 2`. -/
theorem terminal_typewriter_witness :
    CHAR_SPEED_MS = 20 ∧ FIRST_LINE_DELAY = 2000 ∧
    revealedAfter 0 = 0 ∧
    (revealedAfter 20 < CHAR_MAP.length →
      revealedAfter (20 + 1) = revealedAfter 20 + 1) ∧
    revealedAfter 20 ≤ CHAR_MAP.length ∧
    shownLine (revealedAfter 20) 3 <+: TERMINAL_LINES.getD 3 [] ∧
    revealedPerLine (revealedAfter 20) 0 = (TERMINAL_LINES.getD 0 []).length :=
  terminal_typewriter 20 3 0 2 (by norm_num) (by decide)

end Portfolio
